import Mathlib

/-!
Shallow embedding of the Ghost-MCP repository (Python tools wrapping the
Ghost CMS Admin API).  Each Python tool file is modelled as a pure Lean
function; network I/O is abstracted as an environment mapping each issued
HTTP request to an outcome, and the list of issued requests is returned
alongside the result.  Machine-level primitives used by the code
(base64url, UTF-8, HMAC-SHA256, Python `json.dumps`) are implemented
executably over `List Nat` bytes and `List Char` text.
-/

/-- Text is modelled as a list of characters (Python `str`). -/
abbrev Str := List Char

/-- Bytes are naturals; every producer keeps them below 256. -/
abbrev Bytes := List Nat

/-! ### Hex decoding (`bytes.fromhex`) -/

/-- Value of one hex digit, as Python `bytes.fromhex` accepts them. -/
def hexVal? (c : Char) : Option Nat :=
  if '0' ≤ c ∧ c ≤ '9' then some (c.toNat - 48)
  else if 'a' ≤ c ∧ c ≤ 'f' then some (c.toNat - 87)
  else if 'A' ≤ c ∧ c ≤ 'F' then some (c.toNat - 55)
  else none

/-- Python `bytes.fromhex`: pairs of hex digits, ASCII spaces allowed
between pairs; `none` models the `ValueError` raised on malformed input. -/
def bytesFromHex? : Str → Option Bytes
  | [] => some []
  | c :: rest =>
    if c = ' ' then bytesFromHex? rest
    else
      match rest with
      | [] => none
      | d :: rest2 =>
        match hexVal? c, hexVal? d with
        | some hi, some lo => (bytesFromHex? rest2).map (fun bs => (hi * 16 + lo) :: bs)
        | _, _ => none

/-! ### base64url without padding (`base64.urlsafe_b64encode(...).rstrip(b'=')`) -/

/-- The base64url alphabet character for a 6-bit value. -/
def b64Char (n : Nat) : Char :=
  if n < 26 then Char.ofNat (65 + n)
  else if n < 52 then Char.ofNat (97 + (n - 26))
  else if n < 62 then Char.ofNat (48 + (n - 52))
  else if n = 62 then '-'
  else '_'

/-- Inverse of `b64Char` on the alphabet. -/
def b64Val (c : Char) : Nat :=
  if 65 ≤ c.toNat ∧ c.toNat ≤ 90 then c.toNat - 65
  else if 97 ≤ c.toNat ∧ c.toNat ≤ 122 then c.toNat - 97 + 26
  else if 48 ≤ c.toNat ∧ c.toNat ≤ 57 then c.toNat - 48 + 52
  else if c = '-' then 62
  else 63

/-- base64url encoding with the trailing `=` padding already stripped,
exactly the bytes produced by `base64.urlsafe_b64encode(s).rstrip(b'=')`. -/
def b64urlEncode : Bytes → Str
  | [] => []
  | [b1] => [b64Char (b1 / 4), b64Char (b1 % 4 * 16)]
  | [b1, b2] => [b64Char (b1 / 4), b64Char (b1 % 4 * 16 + b2 / 16), b64Char (b2 % 16 * 4)]
  | b1 :: b2 :: b3 :: rest =>
    b64Char (b1 / 4) :: b64Char (b1 % 4 * 16 + b2 / 16) ::
      b64Char (b2 % 16 * 4 + b3 / 64) :: b64Char (b3 % 64) :: b64urlEncode rest

/-- base64url decoding of an unpadded encoding (inverse of `b64urlEncode`). -/
def b64urlDecode : Str → Bytes
  | [] => []
  | [_] => []
  | [c1, c2] => [b64Val c1 * 4 + b64Val c2 / 16]
  | [c1, c2, c3] => [b64Val c1 * 4 + b64Val c2 / 16, b64Val c2 % 16 * 16 + b64Val c3 / 4]
  | c1 :: c2 :: c3 :: c4 :: rest =>
    (b64Val c1 * 4 + b64Val c2 / 16) :: (b64Val c2 % 16 * 16 + b64Val c3 / 4) ::
      (b64Val c3 % 4 * 64 + b64Val c4) :: b64urlDecode rest

/-! ### UTF-8 (`str.encode()`) -/

/-- UTF-8 encoding of one character. -/
def utf8Char (c : Char) : Bytes :=
  let n := c.toNat
  if n < 128 then [n]
  else if n < 2048 then [192 + n / 64, 128 + n % 64]
  else if n < 65536 then [224 + n / 4096, 128 + n / 64 % 64, 128 + n % 64]
  else [240 + n / 262144, 128 + n / 4096 % 64, 128 + n / 64 % 64, 128 + n % 64]

/-- UTF-8 encoding of a string (`str.encode()` in the source). -/
def strBytes : Str → Bytes
  | [] => []
  | c :: rest => utf8Char c ++ strBytes rest

/-! ### JSON values and Python `json.dumps` -/

/-- JSON values, as Python's `json` module produces and consumes them.
Object fields keep insertion order, as Python dicts do. -/
inductive JVal where
  | jnull : JVal
  | jbool : Bool → JVal
  | jint : Int → JVal
  | jstr : Str → JVal
  | jarr : List JVal → JVal
  | jobj : List (Str × JVal) → JVal

/-- Lowercase hex digit, as Python's `\uXXXX` escapes use. -/
def hexDig (n : Nat) : Char :=
  if n < 10 then Char.ofNat (48 + n) else Char.ofNat (97 + (n - 10))

/-- Four lowercase hex digits. -/
def hexDig4 (n : Nat) : Str :=
  [hexDig (n / 4096 % 16), hexDig (n / 256 % 16), hexDig (n / 16 % 16), hexDig (n % 16)]

/-- Escaping of one character inside a JSON string literal, following
Python `json.dumps` with its default `ensure_ascii=True`: two-character
escapes for the usual controls, `\uXXXX` for other controls and all
non-ASCII characters (surrogate pairs above U+FFFF), everything between
0x20 and 0x7e verbatim. -/
def jsonEscChar (c : Char) : Str :=
  if c = '"' then ['\\', '"']
  else if c = '\\' then ['\\', '\\']
  else if c.toNat = 8 then ['\\', 'b']
  else if c.toNat = 9 then ['\\', 't']
  else if c.toNat = 10 then ['\\', 'n']
  else if c.toNat = 12 then ['\\', 'f']
  else if c.toNat = 13 then ['\\', 'r']
  else if c.toNat < 32 then '\\' :: 'u' :: hexDig4 c.toNat
  else if c.toNat < 127 then [c]
  else if c.toNat < 65536 then '\\' :: 'u' :: hexDig4 c.toNat
  else
    '\\' :: 'u' :: hexDig4 (55296 + (c.toNat - 65536) / 1024) ++
      ('\\' :: 'u' :: hexDig4 (56320 + (c.toNat - 65536) % 1024))

/-- Body of a JSON string literal. -/
def jsonEscStr : Str → Str
  | [] => []
  | c :: rest => jsonEscChar c ++ jsonEscStr rest

mutual

/-- Python `json.dumps` with its default separators `', '` and `': '`. -/
def jsonDumps : JVal → Str
  | .jnull => "null".data
  | .jbool true => "true".data
  | .jbool false => "false".data
  | .jint n => (toString n).data
  | .jstr s => '"' :: jsonEscStr s ++ ['"']
  | .jarr xs => '[' :: jsonDumpsArr xs ++ [']']
  | .jobj kvs => '\x7b' :: jsonDumpsObj kvs ++ ['\x7d']

/-- Comma-separated array elements. -/
def jsonDumpsArr : List JVal → Str
  | [] => []
  | [x] => jsonDumps x
  | x :: rest => jsonDumps x ++ ',' :: ' ' :: jsonDumpsArr rest

/-- Comma-separated `"key": value` fields. -/
def jsonDumpsObj : List (Str × JVal) → Str
  | [] => []
  | [(k, v)] => '"' :: jsonEscStr k ++ '"' :: ':' :: ' ' :: jsonDumps v
  | (k, v) :: rest =>
    '"' :: jsonEscStr k ++ '"' :: ':' :: ' ' :: jsonDumps v ++ ',' :: ' ' :: jsonDumpsObj rest

end

/-! ### SHA-256 (`hashlib.sha256`) over 32-bit words carried as `Nat % 2^32` -/

/-- The 64 SHA-256 round constants. -/
def sha256K : List Nat :=
  [1116352408, 1899447441, 3049323471, 3921009573, 961987163, 1508970993,
   2453635748, 2870763221, 3624381080, 310598401, 607225278, 1426881987,
   1925078388, 2162078206, 2614888103, 3248222580, 3835390401, 4022224774,
   264347078, 604807628, 770255983, 1249150122, 1555081692, 1996064986,
   2554220882, 2821834349, 2952996808, 3210313671, 3336571891, 3584528711,
   113926993, 338241895, 666307205, 773529912, 1294757372, 1396182291,
   1695183700, 1986661051, 2177026350, 2456956037, 2730485921, 2820302411,
   3259730800, 3345764771, 3516065817, 3600352804, 4094571909, 275423344,
   430227734, 506948616, 659060556, 883997877, 958139571, 1322822218,
   1537002063, 1747873779, 1955562222, 2024104815, 2227730452, 2361852424,
   2428436474, 2756734187, 3204031479, 3329325298]

/-- The SHA-256 initial hash state. -/
def sha256H0 : List Nat :=
  [1779033703, 3144134277, 1013904242, 2773480762,
   1359893119, 2600822924, 528734635, 1541459225]

/-- Right rotation of a 32-bit word. -/
def rotr32 (n x : Nat) : Nat := x / 2 ^ n + x % 2 ^ n * 2 ^ (32 - n)

/-- σ0 of the SHA-256 message schedule. -/
def ssig0 (x : Nat) : Nat := Nat.xor (rotr32 7 x) (Nat.xor (rotr32 18 x) (x / 2 ^ 3))

/-- σ1 of the SHA-256 message schedule. -/
def ssig1 (x : Nat) : Nat := Nat.xor (rotr32 17 x) (Nat.xor (rotr32 19 x) (x / 2 ^ 10))

/-- Σ0 of the SHA-256 compression function. -/
def bsig0 (x : Nat) : Nat := Nat.xor (rotr32 2 x) (Nat.xor (rotr32 13 x) (rotr32 22 x))

/-- Σ1 of the SHA-256 compression function. -/
def bsig1 (x : Nat) : Nat := Nat.xor (rotr32 6 x) (Nat.xor (rotr32 11 x) (rotr32 25 x))

/-- SHA-256 `Ch`. -/
def sha256Ch (x y z : Nat) : Nat := Nat.xor (Nat.land x y) (Nat.land (Nat.xor x 4294967295) z)

/-- SHA-256 `Maj`. -/
def sha256Maj (x y z : Nat) : Nat :=
  Nat.xor (Nat.land x y) (Nat.xor (Nat.land x z) (Nat.land y z))

/-- Big-endian 32-bit words from groups of four bytes. -/
def wordsOfBytes : Bytes → List Nat
  | b1 :: b2 :: b3 :: b4 :: rest =>
    (b1 * 16777216 + b2 * 65536 + b3 * 256 + b4) :: wordsOfBytes rest
  | _ => []

/-- One step of the SHA-256 message-schedule extension: append the next word. -/
def sha256WNext (ws : List Nat) : Nat :=
  let l := ws.length
  (ssig1 (ws.getD (l - 2) 0) + ws.getD (l - 7) 0 + ssig0 (ws.getD (l - 15) 0)
    + ws.getD (l - 16) 0) % 4294967296

/-- Extend the 16 chunk words by `n` scheduled words. -/
def sha256Extend (ws : List Nat) : Nat → List Nat
  | 0 => ws
  | n + 1 => sha256Extend (ws ++ [sha256WNext ws]) n

/-- One round of the SHA-256 compression function on the state `[a..h]`. -/
def sha256Round (st : List Nat) (kw : Nat × Nat) : List Nat :=
  match st with
  | [a, b, c, d, e, f, g, h] =>
    let t1 := (h + bsig1 e + sha256Ch e f g + kw.1 + kw.2) % 4294967296
    let t2 := (bsig0 a + sha256Maj a b c) % 4294967296
    [(t1 + t2) % 4294967296, a, b, c, (d + t1) % 4294967296, e, f, g]
  | _ => st

/-- Process one 64-byte chunk into the running hash state. -/
def sha256Chunk (h : List Nat) (chunk : Bytes) : List Nat :=
  let ws := sha256Extend (wordsOfBytes chunk) 48
  let st := List.foldl sha256Round h (List.zip sha256K ws)
  List.zipWith (fun x y => (x + y) % 4294967296) h st

/-- 64-bit big-endian length field of the padding. -/
def be64 (n : Nat) : Bytes :=
  [n / 2 ^ 56 % 256, n / 2 ^ 48 % 256, n / 2 ^ 40 % 256, n / 2 ^ 32 % 256,
   n / 2 ^ 24 % 256, n / 2 ^ 16 % 256, n / 2 ^ 8 % 256, n % 256]

/-- SHA-256 padding: `0x80`, zeros to 56 mod 64, then the bit length. -/
def sha256Pad (msg : Bytes) : Bytes :=
  msg ++ 128 :: List.replicate ((119 - msg.length % 64) % 64) 0 ++ be64 (msg.length * 8)

/-- Split into 64-byte chunks. -/
def chunks64 (l : Bytes) : List Bytes :=
  if l.length = 0 then [] else l.take 64 :: chunks64 (l.drop 64)
  termination_by l.length
  decreasing_by simp [List.length_drop]; omega

/-- Big-endian bytes of a list of 32-bit words. -/
def bytesOfWords : List Nat → Bytes
  | [] => []
  | w :: rest => w / 16777216 % 256 :: w / 65536 % 256 :: w / 256 % 256 :: w % 256 :: bytesOfWords rest

/-- SHA-256 digest of a byte string. -/
def sha256 (msg : Bytes) : Bytes :=
  bytesOfWords (List.foldl sha256Chunk sha256H0 (chunks64 (sha256Pad msg)))

/-- `hmac.new(key, msg, hashlib.sha256).digest()`: HMAC-SHA256 with the
64-byte SHA-256 block size. -/
def hmacSha256 (key msg : Bytes) : Bytes :=
  let k1 := if 64 < key.length then sha256 key else key
  let k2 := k1 ++ List.replicate (64 - k1.length) 0
  let ipad := k2.map (fun b => Nat.xor b 54)
  let opad := k2.map (fun b => Nat.xor b 92)
  sha256 (opad ++ sha256 (ipad ++ msg))

/-! ### The token builder (`create_token`, verbatim in every tool file) -/

/-- The JWT header dict built by `create_token`. -/
def tokenHeader (key_id : Str) : JVal :=
  .jobj [("alg".data, .jstr "HS256".data), ("typ".data, .jstr "JWT".data),
         ("kid".data, .jstr key_id)]

/-- The JWT payload dict built by `create_token` at issue time `iat`. -/
def tokenPayload (iat : Nat) : JVal :=
  .jobj [("iat".data, .jint iat), ("exp".data, .jint (iat + 300)),
         ("aud".data, .jstr "/admin/".data)]

/-- The helper `b64encode(obj)` of the source:
`base64.urlsafe_b64encode(json.dumps(obj).encode()).rstrip(b'=').decode('utf-8')`. -/
def b64encodeObj (obj : JVal) : Str := b64urlEncode (strBytes (jsonDumps obj))

/-- `create_token(key_id, key_secret)` at call time `t` (`int(time.time())`).
`none` models the `ValueError` that `bytes.fromhex` raises on a malformed
hex secret; it is the only failure point of the function. -/
def create_token (key_id key_secret : Str) (t : Nat) : Option Str :=
  let header_encoded := b64encodeObj (tokenHeader key_id)
  let payload_encoded := b64encodeObj (tokenPayload t)
  let message := header_encoded ++ '.' :: payload_encoded
  match bytesFromHex? key_secret with
  | none => none
  | some key =>
    let signature_encoded := b64urlEncode (hmacSha256 key (strBytes message))
    some (header_encoded ++ '.' :: payload_encoded ++ '.' :: signature_encoded)

/-! ### The request/response model

Network I/O is abstracted: an `Env` maps each HTTP request the code issues
to its outcome.  The outcome of a call through the retry-mounted session is
the final outcome after the adapter's internal retries (the retry machinery
itself is modelled separately, see `retrySend`).  Each operation returns,
besides its result, the list of requests it issued, in order.  The fixed
headers (`Authorization: Ghost {token}`, `Accept`, `Content-Type`) and the
30-second timeout are the same on every request and are not recorded. -/

/-- One HTTP request issued by an operation. -/
structure Request where
  method : Str
  url : Str
  params : Option JVal
  body : Option JVal

/-- Outcome of one session call: either a transport-level
`requests.exceptions.RequestException` whose `e.response` is `None`
(connection failure, timeout, retries exhausted), or a response with a
status code, raw text, and the JSON value its body decodes to (`none`
when `.json()` would fail). -/
inductive HttpOutcome where
  | exc : Str → HttpOutcome
  | resp : Nat → Str → Option JVal → HttpOutcome

/-- The remote side: an outcome for every request. -/
abbrev Env := Request → HttpOutcome

/-- Python exceptions as the `except` clauses of the source distinguish
them: `reqExn` is a `requests.exceptions.RequestException` carrying
`e.response` (its status and text) when one is attached; `plainExn` is any
other exception (`ValueError` from `bytes.fromhex` or JSON decoding,
`TypeError`, `KeyError`, `AttributeError`), caught by `except Exception`. -/
inductive PyExn where
  | reqExn : Str → Option (Nat × Str) → PyExn
  | plainExn : Str → PyExn

/-- `{"error": msg}`, the uniform error envelope. -/
def errObj (msg : Str) : JVal := .jobj [("error".data, .jstr msg)]

/-- The two `except` handlers, verbatim in every tool file:
`RequestException` is wrapped as a "Network or HTTP error" envelope with
the response text appended when a response is attached; every other
exception becomes an "Unexpected error" envelope. -/
def handleExc : PyExn → Str
  | .reqExn m r =>
    jsonDumps (errObj ("Network or HTTP error - ".data ++ m ++
      (match r with | none => [] | some (_, txt) => '\n' :: "Response: ".data ++ txt)))
  | .plainExn m => jsonDumps (errObj ("Unexpected error - ".data ++ m))

/-- Modelled `str(HTTPError)`; the exact `requests` wording (reason phrase
and URL) carries server-supplied data and is not modelled further. -/
def httpStatusErrMsg (st : Nat) : Str := (toString st).data ++ " Error".data

/-- `response.raise_for_status()`: raises an `HTTPError` (a
`RequestException` with the response attached) exactly when
`400 <= status < 600`. -/
def raiseForStatus (st : Nat) (text : Str) : Option PyExn :=
  if 400 ≤ st ∧ st < 600 then some (.reqExn (httpStatusErrMsg st) (some (st, text))) else none

/-- Modelled message of the `json` decode error raised by `.json()` on a
non-JSON body; the exact text depends on the body and is not load-bearing.
Stdlib `json.JSONDecodeError` is a `ValueError`, so it is caught by the
`except Exception` handler, not the `RequestException` one. -/
def jsonDecodeErrMsg : Str := "Expecting value".data

/-- Modelled message of a `TypeError`. -/
def typeErrMsg : Str := "TypeError".data

/-- Modelled message of a `KeyError`. -/
def keyErrMsg : Str := "KeyError".data

/-- Modelled message of an `AttributeError`. -/
def attrErrMsg : Str := "AttributeError".data

/-- Modelled message of the `UnboundLocalError` raised by the `finally:
session.close()` clause when the `try` body fails before `session` is
bound (only possible if `bytes.fromhex` rejects the hardcoded secret);
this exception replaces the handler's return value and propagates. -/
def unboundSessionMsg : Str := "local variable session referenced before assignment".data

/-- First-match lookup in a JSON object's fields (Python dict access;
Python dicts cannot hold duplicate keys). -/
def lookupStr : List (Str × JVal) → Str → Option JVal
  | [], _ => none
  | (k', v) :: rest, k => if k' = k then some v else lookupStr rest k

/-- Python dict assignment `d[k] = v`: replaces in place, appends if absent. -/
def dictSet : List (Str × JVal) → Str → JVal → List (Str × JVal)
  | [], k, v => [(k, v)]
  | (k', v') :: rest, k, v =>
    if k' = k then (k, v) :: rest else (k', v') :: dictSet rest k v

/-- Python truthiness of a JSON value. -/
def pyFalsy : JVal → Bool
  | .jnull => true
  | .jbool b => !b
  | .jint n => n = 0
  | .jstr s => s.isEmpty
  | .jarr xs => xs.isEmpty
  | .jobj kvs => kvs.isEmpty

/-- Python `len()`: defined on strings, lists and dicts, `TypeError` (none)
otherwise. -/
def pyLen : JVal → Option Nat
  | .jstr s => some s.length
  | .jarr xs => some xs.length
  | .jobj kvs => some kvs.length
  | _ => none

/-- Whether the second string starts with the first. -/
def startsWithStr : Str → Str → Bool
  | [], _ => true
  | _ :: _, [] => false
  | n :: ns, h :: hs => n = h && startsWithStr ns hs

/-- Python `needle in hay` on strings: substring containment. -/
def containsStr (needle : Str) : Str → Bool
  | [] => needle.isEmpty
  | h :: hs => startsWithStr needle (h :: hs) || containsStr needle hs

/-- `str.rstrip("/")`. -/
def rstripSlashes (s : Str) : Str := (s.reverse.dropWhile (fun c => c = '/')).reverse

/-- The hardcoded `admin_id` of every tool file. -/
def ghost_admin_id : Str := "67b2d2824fdabf0001eb99ea".data

/-- The hardcoded `admin_secret` of every tool file. -/
def ghost_admin_secret : Str :=
  "100eda163e9fea6906fbd7ddc841812c70561b19ab2e6d7b31f844f6ccd7b05d".data

/-- The sentinel that switches an operation into metadata mode. -/
def toolInfoSentinel : Str := "__tool_info__".data

/-- An `args` entry `{"type":..,"description":..,"required":..}`. -/
def argInfo (ty desc : Str) (req : Bool) : JVal :=
  .jobj [("type".data, .jstr ty), ("description".data, .jstr desc),
         ("required".data, .jbool req)]

/-- An `args` entry that also carries a `"default"`. -/
def argInfoD (ty desc : Str) (req : Bool) (dflt : JVal) : JVal :=
  .jobj [("type".data, .jstr ty), ("description".data, .jstr desc),
         ("required".data, .jbool req), ("default".data, dflt)]

/-- A tool descriptor `{"name":..,"description":..,"args":..}`. -/
def toolInfo (name desc : Str) (args : List (Str × JVal)) : JVal :=
  .jobj [("name".data, .jstr name), ("description".data, .jstr desc),
         ("args".data, .jobj args)]

/-- Optional string argument merged into a payload when provided. -/
def optStrField (k : Str) : Option Str → List (Str × JVal)
  | some s => [(k, .jstr s)]
  | none => []

/-- Optional boolean argument merged into a payload when provided. -/
def optBoolField (k : Str) : Option Bool → List (Str × JVal)
  | some b => [(k, .jbool b)]
  | none => []

/-- Optional list argument merged into a payload when provided. -/
def optListField (k : Str) : Option (List JVal) → List (Str × JVal)
  | some xs => [(k, .jarr xs)]
  | none => []

/-- The result of one operation invocation: the returned string (or, in
the one unreachable corner where the `finally` clause itself raises, the
propagating exception) together with the requests issued. -/
abbrev OpResult := Except PyExn Str × List Request

/-! ### `update_ghost_post` (src/src/tools/update_ghost_post.py) -/

/-- The metadata descriptor returned by `update_ghost_post("__tool_info__")`. -/
def update_ghost_post_info : JVal :=
  toolInfo "update_ghost_post".data "Updates an existing post in Ghost blog".data
    [("post_id".data, argInfo "string".data "The ID of the post to update".data true),
     ("title".data, argInfo "string".data "New title for the post".data false),
     ("content".data, argInfo "string".data "New content/body for the post".data false),
     ("status".data, argInfo "string".data "New status (draft, published, scheduled)".data false),
     ("tags".data, argInfo "list".data "New list of tag objects (each with 'name')".data false),
     ("featured".data, argInfo "boolean".data "Whether this is a featured post".data false)]

/-- The post-response fix-up of `update_ghost_post` (lines 206-211):
`if 'posts' in updated_post and len(updated_post['posts']) > 0:` then the
first post's `lexical` and `html` keys are (re)assigned from `.get` with
`''` defaults.  `.error` models the `TypeError`/`KeyError`/`AttributeError`
the Python expressions raise on non-dict shapes (`in` on a non-container,
indexing a dict by `0`, `.get` on a non-dict). -/
def lexicalHtmlFixup : JVal → Except PyExn JVal
  | .jobj kvs =>
    match lookupStr kvs "posts".data with
    | none => .ok (.jobj kvs)
    | some w =>
      match pyLen w with
      | none => .error (.plainExn typeErrMsg)
      | some 0 => .ok (.jobj kvs)
      | some (_ + 1) =>
        match w with
        | .jarr (p0 :: rest) =>
          match p0 with
          | .jobj p0kvs =>
            let lex := (lookupStr p0kvs "lexical".data).getD (.jstr [])
            let html := (lookupStr p0kvs "html".data).getD (.jstr [])
            let p0' := dictSet (dictSet p0kvs "lexical".data lex) "html".data html
            .ok (.jobj (dictSet kvs "posts".data (.jarr (.jobj p0' :: rest))))
          | _ => .error (.plainExn attrErrMsg)
        | .jstr _ => .error (.plainExn attrErrMsg)
        | .jobj _ => .error (.plainExn keyErrMsg)
        | _ => .error (.plainExn typeErrMsg)
  | .jarr xs =>
    if xs.any (fun x => match x with | .jstr s => s = "posts".data | _ => false)
    then .error (.plainExn typeErrMsg) else .ok (.jarr xs)
  | .jstr s =>
    if containsStr "posts".data s then .error (.plainExn typeErrMsg) else .ok (.jstr s)
  | _ => .error (.plainExn typeErrMsg)

/-- `update_ghost_post(post_id, title, content, status, tags, featured)`
at call time `t`, with `ghost_api_url?` the value of the `GHOST_API_URL`
environment variable.  `none` arguments are Python `None` defaults. -/
def update_ghost_post (env : Env) (t : Nat) (ghost_api_url? : Option Str)
    (post_id : Str) (title content status : Option Str)
    (tags : Option (List JVal)) (featured : Option Bool) : OpResult :=
  if post_id = toolInfoSentinel then (.ok (jsonDumps update_ghost_post_info), [])
  else if post_id = [] then (.ok (jsonDumps (errObj "Post ID is required".data)), [])
  else
  let api_url := rstripSlashes (ghost_api_url?.getD "https://blog.emmanuelu.com".data)
  match create_token ghost_admin_id ghost_admin_secret t with
  | none => (.error (.plainExn unboundSessionMsg), [])
  | some _token =>
  let get_url := api_url ++ "/ghost/api/admin/posts/".data ++ post_id
  let getReq : Request := ⟨"GET".data, get_url, none, none⟩
  match env getReq with
  | .exc m => (.ok (handleExc (.reqExn m none)), [getReq])
  | .resp st text body =>
  match raiseForStatus st text with
  | some e => (.ok (handleExc e), [getReq])
  | none =>
  match body with
  | none => (.ok (handleExc (.plainExn jsonDecodeErrMsg)), [getReq])
  | some current_post =>
  match current_post with
  | .jobj kvs =>
    match lookupStr kvs "posts".data with
    | none => (.ok (jsonDumps (errObj ("Post ".data ++ post_id ++ " not found".data))), [getReq])
    | some v =>
      if pyFalsy v then
        (.ok (jsonDumps (errObj ("Post ".data ++ post_id ++ " not found".data))), [getReq])
      else
        match pyLen v with
        | none => (.ok (handleExc (.plainExn typeErrMsg)), [getReq])
        | some 0 => (.ok (jsonDumps (errObj ("Post ".data ++ post_id ++ " not found".data))), [getReq])
        | some (_ + 1) =>
          match v with
          | .jarr (p0 :: _) =>
            match p0 with
            | .jobj p0kvs =>
              match lookupStr p0kvs "updated_at".data with
              | none => (.ok (handleExc (.plainExn keyErrMsg)), [getReq])
              | some updated_at =>
                let url := api_url ++ "/ghost/api/admin/posts/".data ++ post_id ++ "/?source=html".data
                let post_data : JVal := .jobj [("posts".data, .jarr [.jobj
                  (("updated_at".data, updated_at) ::
                    optStrField "title".data title ++ optStrField "html".data content ++
                    optStrField "status".data status ++ optBoolField "featured".data featured ++
                    optListField "tags".data tags)])]
                let putReq : Request := ⟨"PUT".data, url, none, some post_data⟩
                match env putReq with
                | .exc m => (.ok (handleExc (.reqExn m none)), [getReq, putReq])
                | .resp st2 text2 body2 =>
                match raiseForStatus st2 text2 with
                | some e => (.ok (handleExc e), [getReq, putReq])
                | none =>
                match body2 with
                | none => (.ok (handleExc (.plainExn jsonDecodeErrMsg)), [getReq, putReq])
                | some updated_post =>
                  match lexicalHtmlFixup updated_post with
                  | .ok j => (.ok (jsonDumps j), [getReq, putReq])
                  | .error e => (.ok (handleExc e), [getReq, putReq])
            | _ => (.ok (handleExc (.plainExn typeErrMsg)), [getReq])
          | .jstr _ => (.ok (handleExc (.plainExn typeErrMsg)), [getReq])
          | .jobj _ => (.ok (handleExc (.plainExn keyErrMsg)), [getReq])
          | _ => (.ok (handleExc (.plainExn typeErrMsg)), [getReq])
  | _ => (.ok (handleExc (.plainExn attrErrMsg)), [getReq])

/-! ### `update_ghost_page` (src/src/tools/update_ghost_page.py) -/

/-- The metadata descriptor returned by `update_ghost_page("__tool_info__")`. -/
def update_ghost_page_info : JVal :=
  toolInfo "update_ghost_page".data "Updates an existing page in Ghost blog".data
    [("page_id".data, argInfo "string".data "The ID of the page to update".data true),
     ("title".data, argInfo "string".data "New title for the page".data false),
     ("content".data, argInfo "string".data "New content/body for the page".data false),
     ("status".data, argInfo "string".data "New status (draft, published, scheduled)".data false),
     ("featured".data, argInfo "boolean".data "Whether this is a featured page".data false)]

/-- `update_ghost_page(page_id, title, content, status, featured)` at call
time `t`.  Same read-modify-write flow as `update_ghost_post`, against the
`pages` resource, without the `tags` argument, the `?source=html` query,
and the lexical/html fix-up. -/
def update_ghost_page (env : Env) (t : Nat) (ghost_api_url? : Option Str)
    (page_id : Str) (title content status : Option Str) (featured : Option Bool) : OpResult :=
  if page_id = toolInfoSentinel then (.ok (jsonDumps update_ghost_page_info), [])
  else if page_id = [] then (.ok (jsonDumps (errObj "Page ID is required".data)), [])
  else
  let api_url := rstripSlashes (ghost_api_url?.getD "https://blog.emmanuelu.com".data)
  match create_token ghost_admin_id ghost_admin_secret t with
  | none => (.error (.plainExn unboundSessionMsg), [])
  | some _token =>
  let get_url := api_url ++ "/ghost/api/admin/pages/".data ++ page_id
  let getReq : Request := ⟨"GET".data, get_url, none, none⟩
  match env getReq with
  | .exc m => (.ok (handleExc (.reqExn m none)), [getReq])
  | .resp st text body =>
  match raiseForStatus st text with
  | some e => (.ok (handleExc e), [getReq])
  | none =>
  match body with
  | none => (.ok (handleExc (.plainExn jsonDecodeErrMsg)), [getReq])
  | some current_page =>
  match current_page with
  | .jobj kvs =>
    match lookupStr kvs "pages".data with
    | none => (.ok (jsonDumps (errObj ("Page ".data ++ page_id ++ " not found".data))), [getReq])
    | some v =>
      if pyFalsy v then
        (.ok (jsonDumps (errObj ("Page ".data ++ page_id ++ " not found".data))), [getReq])
      else
        match pyLen v with
        | none => (.ok (handleExc (.plainExn typeErrMsg)), [getReq])
        | some 0 => (.ok (jsonDumps (errObj ("Page ".data ++ page_id ++ " not found".data))), [getReq])
        | some (_ + 1) =>
          match v with
          | .jarr (p0 :: _) =>
            match p0 with
            | .jobj p0kvs =>
              match lookupStr p0kvs "updated_at".data with
              | none => (.ok (handleExc (.plainExn keyErrMsg)), [getReq])
              | some updated_at =>
                let url := api_url ++ "/ghost/api/admin/pages/".data ++ page_id
                let page_data : JVal := .jobj [("pages".data, .jarr [.jobj
                  (("updated_at".data, updated_at) ::
                    optStrField "title".data title ++ optStrField "html".data content ++
                    optStrField "status".data status ++ optBoolField "featured".data featured)])]
                let putReq : Request := ⟨"PUT".data, url, none, some page_data⟩
                match env putReq with
                | .exc m => (.ok (handleExc (.reqExn m none)), [getReq, putReq])
                | .resp st2 text2 body2 =>
                match raiseForStatus st2 text2 with
                | some e => (.ok (handleExc e), [getReq, putReq])
                | none =>
                match body2 with
                | none => (.ok (handleExc (.plainExn jsonDecodeErrMsg)), [getReq, putReq])
                | some updated_page => (.ok (jsonDumps updated_page), [getReq, putReq])
            | _ => (.ok (handleExc (.plainExn typeErrMsg)), [getReq])
          | .jstr _ => (.ok (handleExc (.plainExn typeErrMsg)), [getReq])
          | .jobj _ => (.ok (handleExc (.plainExn keyErrMsg)), [getReq])
          | _ => (.ok (handleExc (.plainExn typeErrMsg)), [getReq])
  | _ => (.ok (handleExc (.plainExn attrErrMsg)), [getReq])

/-! ### `update_ghost_tag` (src/src/tools/update_ghost_tag.py) -/

/-- The metadata descriptor returned by `update_ghost_tag("__tool_info__")`. -/
def update_ghost_tag_info : JVal :=
  toolInfo "update_ghost_tag".data "Updates an existing tag in Ghost blog".data
    [("tag_id".data, argInfo "string".data "The ID of the tag to update".data true),
     ("name".data, argInfo "string".data "New name for the tag".data false),
     ("description".data, argInfo "string".data "New description for the tag".data false),
     ("accent_color".data, argInfo "string".data "New accent color (hex code)".data false),
     ("visibility".data, argInfo "string".data "New visibility setting (public or internal)".data false)]

/-- `update_ghost_tag(tag_id, name, description, accent_color, visibility)`
at call time `t`.  Same read-modify-write flow against the `tags` resource. -/
def update_ghost_tag (env : Env) (t : Nat) (ghost_api_url? : Option Str)
    (tag_id : Str) (name description accent_color visibility : Option Str) : OpResult :=
  if tag_id = toolInfoSentinel then (.ok (jsonDumps update_ghost_tag_info), [])
  else if tag_id = [] then (.ok (jsonDumps (errObj "Tag ID is required".data)), [])
  else
  let api_url := rstripSlashes (ghost_api_url?.getD "https://blog.emmanuelu.com".data)
  match create_token ghost_admin_id ghost_admin_secret t with
  | none => (.error (.plainExn unboundSessionMsg), [])
  | some _token =>
  let get_url := api_url ++ "/ghost/api/admin/tags/".data ++ tag_id
  let getReq : Request := ⟨"GET".data, get_url, none, none⟩
  match env getReq with
  | .exc m => (.ok (handleExc (.reqExn m none)), [getReq])
  | .resp st text body =>
  match raiseForStatus st text with
  | some e => (.ok (handleExc e), [getReq])
  | none =>
  match body with
  | none => (.ok (handleExc (.plainExn jsonDecodeErrMsg)), [getReq])
  | some current_tag =>
  match current_tag with
  | .jobj kvs =>
    match lookupStr kvs "tags".data with
    | none => (.ok (jsonDumps (errObj ("Tag ".data ++ tag_id ++ " not found".data))), [getReq])
    | some v =>
      if pyFalsy v then
        (.ok (jsonDumps (errObj ("Tag ".data ++ tag_id ++ " not found".data))), [getReq])
      else
        match pyLen v with
        | none => (.ok (handleExc (.plainExn typeErrMsg)), [getReq])
        | some 0 => (.ok (jsonDumps (errObj ("Tag ".data ++ tag_id ++ " not found".data))), [getReq])
        | some (_ + 1) =>
          match v with
          | .jarr (p0 :: _) =>
            match p0 with
            | .jobj p0kvs =>
              match lookupStr p0kvs "updated_at".data with
              | none => (.ok (handleExc (.plainExn keyErrMsg)), [getReq])
              | some updated_at =>
                let url := api_url ++ "/ghost/api/admin/tags/".data ++ tag_id
                let tag_data : JVal := .jobj [("tags".data, .jarr [.jobj
                  (("updated_at".data, updated_at) ::
                    optStrField "name".data name ++ optStrField "description".data description ++
                    optStrField "accent_color".data accent_color ++
                    optStrField "visibility".data visibility)])]
                let putReq : Request := ⟨"PUT".data, url, none, some tag_data⟩
                match env putReq with
                | .exc m => (.ok (handleExc (.reqExn m none)), [getReq, putReq])
                | .resp st2 text2 body2 =>
                match raiseForStatus st2 text2 with
                | some e => (.ok (handleExc e), [getReq, putReq])
                | none =>
                match body2 with
                | none => (.ok (handleExc (.plainExn jsonDecodeErrMsg)), [getReq, putReq])
                | some updated_tag => (.ok (jsonDumps updated_tag), [getReq, putReq])
            | _ => (.ok (handleExc (.plainExn typeErrMsg)), [getReq])
          | .jstr _ => (.ok (handleExc (.plainExn typeErrMsg)), [getReq])
          | .jobj _ => (.ok (handleExc (.plainExn keyErrMsg)), [getReq])
          | _ => (.ok (handleExc (.plainExn typeErrMsg)), [getReq])
  | _ => (.ok (handleExc (.plainExn attrErrMsg)), [getReq])

/-! ### Delete operations (src/src/tools/delete_ghost_{post,page,tag}.py) -/

/-- The metadata descriptor returned by `delete_ghost_post("__tool_info__")`. -/
def delete_ghost_post_info : JVal :=
  toolInfo "delete_ghost_post".data "Deletes a post from Ghost blog".data
    [("post_id".data, argInfo "string".data "The ID of the post to delete".data true)]

/-- `delete_ghost_post(post_id)` at call time `t`.  This file inlines the
token construction verbatim; its effect is `create_token admin_id
admin_secret t`.  A 204 synthesizes the success envelope; any other
non-error status decodes and re-serializes the body. -/
def delete_ghost_post (env : Env) (t : Nat) (ghost_api_url? : Option Str)
    (post_id : Str) : OpResult :=
  if post_id = toolInfoSentinel then (.ok (jsonDumps delete_ghost_post_info), [])
  else if post_id = [] then (.ok (jsonDumps (errObj "Post ID is required".data)), [])
  else
  let api_url := rstripSlashes (ghost_api_url?.getD "http://192.168.50.80:8083".data)
  match create_token ghost_admin_id ghost_admin_secret t with
  | none => (.error (.plainExn unboundSessionMsg), [])
  | some _token =>
  let url := api_url ++ "/ghost/api/admin/posts/".data ++ post_id
  let delReq : Request := ⟨"DELETE".data, url, none, none⟩
  match env delReq with
  | .exc m => (.ok (handleExc (.reqExn m none)), [delReq])
  | .resp st text body =>
  match raiseForStatus st text with
  | some e => (.ok (handleExc e), [delReq])
  | none =>
  if st = 204 then
    (.ok (jsonDumps (.jobj [("success".data, .jbool true),
      ("message".data, .jstr ("Post ".data ++ post_id ++ " deleted successfully".data))])), [delReq])
  else
    match body with
    | none => (.ok (handleExc (.plainExn jsonDecodeErrMsg)), [delReq])
    | some j => (.ok (jsonDumps j), [delReq])

/-- The metadata descriptor returned by `delete_ghost_page("__tool_info__")`. -/
def delete_ghost_page_info : JVal :=
  toolInfo "delete_ghost_page".data "Deletes a page from Ghost blog".data
    [("page_id".data, argInfo "string".data "The ID of the page to delete".data true)]

/-- `delete_ghost_page(page_id)` at call time `t`; same flow against the
`pages` resource. -/
def delete_ghost_page (env : Env) (t : Nat) (ghost_api_url? : Option Str)
    (page_id : Str) : OpResult :=
  if page_id = toolInfoSentinel then (.ok (jsonDumps delete_ghost_page_info), [])
  else if page_id = [] then (.ok (jsonDumps (errObj "Page ID is required".data)), [])
  else
  let api_url := rstripSlashes (ghost_api_url?.getD "http://192.168.50.80:8083".data)
  match create_token ghost_admin_id ghost_admin_secret t with
  | none => (.error (.plainExn unboundSessionMsg), [])
  | some _token =>
  let url := api_url ++ "/ghost/api/admin/pages/".data ++ page_id
  let delReq : Request := ⟨"DELETE".data, url, none, none⟩
  match env delReq with
  | .exc m => (.ok (handleExc (.reqExn m none)), [delReq])
  | .resp st text body =>
  match raiseForStatus st text with
  | some e => (.ok (handleExc e), [delReq])
  | none =>
  if st = 204 then
    (.ok (jsonDumps (.jobj [("success".data, .jbool true),
      ("message".data, .jstr ("Page ".data ++ page_id ++ " deleted successfully".data))])), [delReq])
  else
    match body with
    | none => (.ok (handleExc (.plainExn jsonDecodeErrMsg)), [delReq])
    | some j => (.ok (jsonDumps j), [delReq])

/-- The metadata descriptor returned by `delete_ghost_tag("__tool_info__")`. -/
def delete_ghost_tag_info : JVal :=
  toolInfo "delete_ghost_tag".data "Deletes a tag from Ghost blog".data
    [("tag_id".data, argInfo "string".data "The ID of the tag to delete".data true)]

/-- `delete_ghost_tag(tag_id)` at call time `t`; same flow against the
`tags` resource. -/
def delete_ghost_tag (env : Env) (t : Nat) (ghost_api_url? : Option Str)
    (tag_id : Str) : OpResult :=
  if tag_id = toolInfoSentinel then (.ok (jsonDumps delete_ghost_tag_info), [])
  else if tag_id = [] then (.ok (jsonDumps (errObj "Tag ID is required".data)), [])
  else
  let api_url := rstripSlashes (ghost_api_url?.getD "http://192.168.50.80:8083".data)
  match create_token ghost_admin_id ghost_admin_secret t with
  | none => (.error (.plainExn unboundSessionMsg), [])
  | some _token =>
  let url := api_url ++ "/ghost/api/admin/tags/".data ++ tag_id
  let delReq : Request := ⟨"DELETE".data, url, none, none⟩
  match env delReq with
  | .exc m => (.ok (handleExc (.reqExn m none)), [delReq])
  | .resp st text body =>
  match raiseForStatus st text with
  | some e => (.ok (handleExc e), [delReq])
  | none =>
  if st = 204 then
    (.ok (jsonDumps (.jobj [("success".data, .jbool true),
      ("message".data, .jstr ("Tag ".data ++ tag_id ++ " deleted successfully".data))])), [delReq])
  else
    match body with
    | none => (.ok (handleExc (.plainExn jsonDecodeErrMsg)), [delReq])
    | some j => (.ok (jsonDumps j), [delReq])

/-! ### Create operations (src/src/tools/create_ghost_{post,page,tag}.py) -/

/-- The metadata descriptor returned by `create_ghost_post("__tool_info__", ...)`. -/
def create_ghost_post_info : JVal :=
  toolInfo "create_ghost_post".data "Creates a new post in Ghost blog".data
    [("title".data, argInfo "string".data "The title of the post".data true),
     ("content".data, argInfo "string".data "The content/body of the post (HTML)".data true),
     ("status".data, argInfoD "string".data "Post status (draft, published, scheduled)".data false (.jstr "draft".data)),
     ("tags".data, argInfo "list".data "List of tag objects (each with 'name')".data false),
     ("featured".data, argInfoD "boolean".data "Whether this is a featured post".data false (.jbool false))]

/-- `create_ghost_post(title, content, status, tags, featured)` at call
time `t`.  The `tags` key is added only when the argument is truthy
(`if tags:`), i.e. a non-empty list. -/
def create_ghost_post (env : Env) (t : Nat) (ghost_api_url? : Option Str)
    (title content status : Str) (tags : Option (List JVal)) (featured : Bool) : OpResult :=
  if title = toolInfoSentinel then (.ok (jsonDumps create_ghost_post_info), [])
  else if title = [] ∨ content = [] then
    (.ok (jsonDumps (errObj "Title and content are required".data)), [])
  else
  let api_url := rstripSlashes (ghost_api_url?.getD "https://blog.emmanuelu.com".data)
  match create_token ghost_admin_id ghost_admin_secret t with
  | none => (.error (.plainExn unboundSessionMsg), [])
  | some _token =>
  let url := api_url ++ "/ghost/api/admin/posts/?source=html".data
  let payload : JVal := .jobj [("posts".data, .jarr [.jobj
    ([("title".data, .jstr title), ("html".data, .jstr content),
      ("status".data, .jstr status), ("featured".data, .jbool featured)] ++
      (match tags with
       | some (t0 :: ts) => [("tags".data, .jarr (t0 :: ts))]
       | _ => []))])]
  let postReq : Request := ⟨"POST".data, url, none, some payload⟩
  match env postReq with
  | .exc m => (.ok (handleExc (.reqExn m none)), [postReq])
  | .resp st text body =>
  match raiseForStatus st text with
  | some e => (.ok (handleExc e), [postReq])
  | none =>
  match body with
  | none => (.ok (handleExc (.plainExn jsonDecodeErrMsg)), [postReq])
  | some j => (.ok (jsonDumps j), [postReq])

/-- The metadata descriptor returned by `create_ghost_page("__tool_info__", ...)`. -/
def create_ghost_page_info : JVal :=
  toolInfo "create_ghost_page".data "Creates a new page in Ghost blog".data
    [("title".data, argInfo "string".data "The title of the page".data true),
     ("content".data, argInfo "string".data "The content/body of the page (HTML or Markdown)".data true),
     ("status".data, argInfoD "string".data "Page status (draft, published, scheduled)".data false (.jstr "draft".data)),
     ("featured".data, argInfoD "boolean".data "Whether this is a featured page".data false (.jbool false))]

/-- `create_ghost_page(title, content, status, featured)` at call time `t`. -/
def create_ghost_page (env : Env) (t : Nat) (ghost_api_url? : Option Str)
    (title content status : Str) (featured : Bool) : OpResult :=
  if title = toolInfoSentinel then (.ok (jsonDumps create_ghost_page_info), [])
  else if title = [] ∨ content = [] then
    (.ok (jsonDumps (errObj "Title and content are required".data)), [])
  else
  let api_url := rstripSlashes (ghost_api_url?.getD "http://192.168.50.80:8083".data)
  match create_token ghost_admin_id ghost_admin_secret t with
  | none => (.error (.plainExn unboundSessionMsg), [])
  | some _token =>
  let url := api_url ++ "/ghost/api/admin/pages".data
  let payload : JVal := .jobj [("pages".data, .jarr [.jobj
    [("title".data, .jstr title), ("html".data, .jstr content),
     ("status".data, .jstr status), ("featured".data, .jbool featured)]])]
  let postReq : Request := ⟨"POST".data, url, none, some payload⟩
  match env postReq with
  | .exc m => (.ok (handleExc (.reqExn m none)), [postReq])
  | .resp st text body =>
  match raiseForStatus st text with
  | some e => (.ok (handleExc e), [postReq])
  | none =>
  match body with
  | none => (.ok (handleExc (.plainExn jsonDecodeErrMsg)), [postReq])
  | some j => (.ok (jsonDumps j), [postReq])

/-- The metadata descriptor returned by `create_ghost_tag("__tool_info__", ...)`. -/
def create_ghost_tag_info : JVal :=
  toolInfo "create_ghost_tag".data "Creates a new tag in Ghost blog".data
    [("name".data, argInfo "string".data "The name of the tag".data true),
     ("description".data, argInfo "string".data "Description of the tag".data false),
     ("accent_color".data, argInfo "string".data "The accent color for the tag (hex code)".data false),
     ("visibility".data, argInfoD "string".data "Tag visibility (public or internal)".data false (.jstr "public".data))]

/-- `create_ghost_tag(name, description, accent_color, visibility)` at call
time `t`.  `description` and `accent_color` are added only when truthy
(`if description:` / `if accent_color:`), i.e. a non-empty string. -/
def create_ghost_tag (env : Env) (t : Nat) (ghost_api_url? : Option Str)
    (name : Str) (description accent_color : Option Str) (visibility : Str) : OpResult :=
  if name = toolInfoSentinel then (.ok (jsonDumps create_ghost_tag_info), [])
  else if name = [] then (.ok (jsonDumps (errObj "Tag name is required".data)), [])
  else
  let api_url := rstripSlashes (ghost_api_url?.getD "https://blog.emmanuelu.com".data)
  match create_token ghost_admin_id ghost_admin_secret t with
  | none => (.error (.plainExn unboundSessionMsg), [])
  | some _token =>
  let url := api_url ++ "/ghost/api/admin/tags".data
  let tag_data : JVal := .jobj [("tags".data, .jarr [.jobj
    ([("name".data, .jstr name), ("visibility".data, .jstr visibility)] ++
      (match description with | some (c :: cs) => [("description".data, .jstr (c :: cs))] | _ => []) ++
      (match accent_color with | some (c :: cs) => [("accent_color".data, .jstr (c :: cs))] | _ => []))])]
  let postReq : Request := ⟨"POST".data, url, none, some tag_data⟩
  match env postReq with
  | .exc m => (.ok (handleExc (.reqExn m none)), [postReq])
  | .resp st text body =>
  match raiseForStatus st text with
  | some e => (.ok (handleExc e), [postReq])
  | none =>
  match body with
  | none => (.ok (handleExc (.plainExn jsonDecodeErrMsg)), [postReq])
  | some j => (.ok (jsonDumps j), [postReq])

/-! ### List operations (src/everything/src/tools/list_ghost_tags.py,
src/src/tools/list_ghost_pages.py) -/

/-- A Python value that is either an int or a str: the `page` argument is
declared `int` but the metadata mode is requested by passing the sentinel
string. -/
inductive PyIntOrStr where
  | int : Int → PyIntOrStr
  | str : Str → PyIntOrStr
deriving DecidableEq

/-- The JSON value a `PyIntOrStr` contributes to a params dict. -/
def pyIntOrStrJ : PyIntOrStr → JVal
  | .int n => .jint n
  | .str s => .jstr s

/-- The metadata descriptor returned by `list_ghost_tags("__tool_info__")`. -/
def list_ghost_tags_info : JVal :=
  toolInfo "list_ghost_tags".data "Lists tags from Ghost blog with pagination".data
    [("page".data, argInfoD "integer".data "Page number for pagination".data false (.jint 1)),
     ("limit".data, argInfoD "integer".data "Number of tags per page".data false (.jint 15)),
     ("include".data, argInfoD "string".data "Include post count with tags".data false (.jstr "count.posts".data))]

/-- `list_ghost_tags(page, limit, include)` at call time `t`.  This file
inlines the token construction verbatim; its effect is
`create_token admin_id admin_secret t`.  `incl` is the `include` argument. -/
def list_ghost_tags (env : Env) (t : Nat) (ghost_api_url? : Option Str)
    (page : PyIntOrStr) (limit : Int) (incl : Str) : OpResult :=
  if page = .str toolInfoSentinel then (.ok (jsonDumps list_ghost_tags_info), [])
  else
  let api_url := rstripSlashes (ghost_api_url?.getD "http://192.168.50.80:8083".data)
  match create_token ghost_admin_id ghost_admin_secret t with
  | none => (.error (.plainExn unboundSessionMsg), [])
  | some _token =>
  let url := api_url ++ "/ghost/api/admin/tags".data
  let params : JVal := .jobj [("page".data, pyIntOrStrJ page),
    ("limit".data, .jint limit), ("include".data, .jstr incl)]
  let getReq : Request := ⟨"GET".data, url, some params, none⟩
  match env getReq with
  | .exc m => (.ok (handleExc (.reqExn m none)), [getReq])
  | .resp st text body =>
  match raiseForStatus st text with
  | some e => (.ok (handleExc e), [getReq])
  | none =>
  match body with
  | none => (.ok (handleExc (.plainExn jsonDecodeErrMsg)), [getReq])
  | some j => (.ok (jsonDumps j), [getReq])

/-- The metadata descriptor returned by `list_ghost_pages("__tool_info__")`. -/
def list_ghost_pages_info : JVal :=
  toolInfo "list_ghost_pages".data "Lists pages from Ghost blog with pagination and filtering options".data
    [("page".data, argInfoD "integer".data "Page number for pagination".data false (.jint 1)),
     ("limit".data, argInfoD "integer".data "Number of pages per page".data false (.jint 15)),
     ("status".data, argInfo "string".data "Filter by page status (draft, published, scheduled)".data false),
     ("include".data, argInfoD "string".data "Related data to include (comma-separated: tags,authors)".data false (.jstr "tags,authors".data))]

/-- `list_ghost_pages(page, limit, status, include)` at call time `t`.
A truthy `status` appends `filter=status:{status}` to the params. -/
def list_ghost_pages (env : Env) (t : Nat) (ghost_api_url? : Option Str)
    (page : PyIntOrStr) (limit : Int) (status : Option Str) (incl : Str) : OpResult :=
  if page = .str toolInfoSentinel then (.ok (jsonDumps list_ghost_pages_info), [])
  else
  let api_url := rstripSlashes (ghost_api_url?.getD "https://blog.emmanuelu.com".data)
  match create_token ghost_admin_id ghost_admin_secret t with
  | none => (.error (.plainExn unboundSessionMsg), [])
  | some _token =>
  let url := api_url ++ "/ghost/api/admin/pages".data
  let params : JVal := .jobj
    ([("page".data, pyIntOrStrJ page), ("limit".data, .jint limit),
      ("include".data, .jstr incl)] ++
     (match status with
      | some (c :: cs) => [("filter".data, .jstr ("status:".data ++ (c :: cs)))]
      | _ => []))
  let getReq : Request := ⟨"GET".data, url, some params, none⟩
  match env getReq with
  | .exc m => (.ok (handleExc (.reqExn m none)), [getReq])
  | .resp st text body =>
  match raiseForStatus st text with
  | some e => (.ok (handleExc e), [getReq])
  | none =>
  match body with
  | none => (.ok (handleExc (.plainExn jsonDecodeErrMsg)), [getReq])
  | some j => (.ok (jsonDumps j), [getReq])

/-! ### Retry adapter model -/

/-- `total=3` of the `Retry` configuration every tool file mounts. -/
def retryTotal : Nat := 3

/-- `backoff_factor=1` of the `Retry` configuration every tool file mounts. -/
def retryBackoffFactor : Nat := 1

/-- `status_forcelist=[429, 500, 502, 503, 504]` of the `Retry`
configuration every tool file mounts. -/
def retryStatusForcelist : List Nat := [429, 500, 502, 503, 504]

/-- Outcome of one wire-level attempt: a transport failure or a response
with a status code. -/
inductive AttemptOutcome where
  | fail : AttemptOutcome
  | status : Nat → AttemptOutcome

/-- Modelled from the spec: the retry loop of the mounted
`HTTPAdapter(max_retries=Retry(total, backoff_factor, status_forcelist))`.
The adapter itself lives in `urllib3`, not in this repository; per the
spec, a response whose status is in the forcelist, or a transport-level
failure, consumes one retry and the request is re-attempted, while any
other response is returned as is.  `attempts i` is the outcome of the
`i`-th wire attempt; the result is the number of attempts performed and
the final status (`none` when the retry budget is exhausted, which the
session surfaces as a transport-level `RequestException`, i.e. the
`HttpOutcome.exc` of the operation-level model). -/
def retrySend (forcelist : List Nat) (attempts : Nat → AttemptOutcome) :
    Nat → Nat → Nat × Option Nat
  | retriesLeft, i =>
    match attempts i with
    | .status s =>
      if s ∈ forcelist then
        match retriesLeft with
        | 0 => (i + 1, none)
        | r + 1 => retrySend forcelist attempts r (i + 1)
      else (i + 1, some s)
    | .fail =>
      match retriesLeft with
      | 0 => (i + 1, none)
      | r + 1 => retrySend forcelist attempts r (i + 1)

/-- An attempt outcome that consumes a retry: a forcelisted status or a
transport failure. -/
def transientOutcome (forcelist : List Nat) : AttemptOutcome → Prop
  | .fail => True
  | .status s => s ∈ forcelist

/-! ### Supporting lemmas: byte bounds, base64url alphabet, round-trip -/

/-- Every Unicode scalar value is below 0x110000. -/
theorem char_toNat_lt (c : Char) : c.toNat < 1114112 := by
  have hv := c.valid
  have h : c.toNat = c.val.toNat := rfl
  rw [h]
  rcases hv with h1 | ⟨h1, h2⟩ <;> omega

/-- UTF-8 produces bytes. -/
theorem utf8Char_lt (c : Char) : ∀ b ∈ utf8Char c, b < 256 := by
  have hc := char_toNat_lt c
  intro b hb
  simp only [utf8Char] at hb
  split at hb
  · simp at hb; omega
  · split at hb
    · simp at hb; rcases hb with rfl | rfl <;> omega
    · split at hb
      · simp at hb; rcases hb with rfl | rfl | rfl <;> omega
      · simp at hb; rcases hb with rfl | rfl | rfl | rfl <;> omega

/-- `strBytes` produces bytes. -/
theorem strBytes_lt (s : Str) : ∀ b ∈ strBytes s, b < 256 := by
  induction s with
  | nil => simp [strBytes]
  | cons c rest ih =>
    intro b hb
    simp only [strBytes, List.mem_append] at hb
    rcases hb with hb | hb
    · exact utf8Char_lt c b hb
    · exact ih b hb

/-- UTF-8 of a character is nonempty. -/
theorem utf8Char_ne_nil (c : Char) : utf8Char c ≠ [] := by
  intro h
  simp only [utf8Char] at h
  split at h
  · simp at h
  · split at h
    · simp at h
    · split at h <;> simp at h

/-- `strBytes` of a nonempty string is nonempty. -/
theorem strBytes_ne_nil (s : Str) (h : s ≠ []) : strBytes s ≠ [] := by
  cases s with
  | nil => exact absurd rfl h
  | cons c rest =>
    simp only [strBytes]
    intro hemp
    exact utf8Char_ne_nil c (List.append_eq_nil.mp hemp).1

/-- `bytesOfWords` produces bytes. -/
theorem bytesOfWords_lt (ws : List Nat) : ∀ b ∈ bytesOfWords ws, b < 256 := by
  induction ws with
  | nil => simp [bytesOfWords]
  | cons w rest ih =>
    intro b hb
    simp only [bytesOfWords, List.mem_cons] at hb
    rcases hb with rfl | rfl | rfl | rfl | hb
    · exact Nat.mod_lt _ (by omega)
    · exact Nat.mod_lt _ (by omega)
    · exact Nat.mod_lt _ (by omega)
    · exact Nat.mod_lt _ (by omega)
    · exact ih b hb

/-- HMAC-SHA256 produces bytes. -/
theorem hmacSha256_lt (key msg : Bytes) : ∀ b ∈ hmacSha256 key msg, b < 256 := by
  unfold hmacSha256 sha256
  exact fun b hb => bytesOfWords_lt _ b hb

/-- One compression round preserves the state length. -/
theorem sha256Round_length (st : List Nat) (kw : Nat × Nat) :
    (sha256Round st kw).length = st.length := by
  unfold sha256Round
  split <;> simp

/-- The compression loop preserves the state length. -/
theorem sha256_foldl_round_length (l : List (Nat × Nat)) :
    ∀ st : List Nat, (List.foldl sha256Round st l).length = st.length := by
  induction l with
  | nil => intro st; rfl
  | cons kw rest ih =>
    intro st
    rw [List.foldl_cons, ih, sha256Round_length]

/-- Chunk processing preserves the state length. -/
theorem sha256Chunk_length (h : List Nat) (chunk : Bytes) :
    (sha256Chunk h chunk).length = h.length := by
  unfold sha256Chunk
  rw [List.length_zipWith, sha256_foldl_round_length, Nat.min_self]

/-- The chunk loop preserves the state length. -/
theorem sha256_foldl_chunk_length (chunks : List Bytes) :
    ∀ h : List Nat, (List.foldl sha256Chunk h chunks).length = h.length := by
  induction chunks with
  | nil => intro h; rfl
  | cons c rest ih =>
    intro h
    rw [List.foldl_cons, ih, sha256Chunk_length]

/-- SHA-256 digests are nonempty (they always hold eight words of bytes). -/
theorem sha256_ne_nil (msg : Bytes) : sha256 msg ≠ [] := by
  unfold sha256
  have hlen : (List.foldl sha256Chunk sha256H0 (chunks64 (sha256Pad msg))).length = 8 :=
    sha256_foldl_chunk_length _ _
  generalize hws : List.foldl sha256Chunk sha256H0 (chunks64 (sha256Pad msg)) = ws
  rw [hws] at hlen
  cases ws with
  | nil => simp at hlen
  | cons w rest => simp [bytesOfWords]

/-- Every character of a base64url encoding is an alphabet character. -/
theorem mem_b64urlEncode (l : Bytes) (hl : ∀ b ∈ l, b < 256) :
    ∀ c ∈ b64urlEncode l, ∃ n, n < 64 ∧ c = b64Char n := by
  induction l using b64urlEncode.induct with
  | case1 => simp [b64urlEncode]
  | case2 b1 =>
    intro c hc
    have hb1 : b1 < 256 := hl b1 (by simp)
    simp [b64urlEncode] at hc
    rcases hc with rfl | rfl <;> exact ⟨_, by omega, rfl⟩
  | case3 b1 b2 =>
    intro c hc
    have hb1 : b1 < 256 := hl b1 (by simp)
    have hb2 : b2 < 256 := hl b2 (by simp)
    simp [b64urlEncode] at hc
    rcases hc with rfl | rfl | rfl <;> exact ⟨_, by omega, rfl⟩
  | case4 b1 b2 b3 rest ih =>
    intro c hc
    have hb1 : b1 < 256 := hl b1 (by simp)
    have hb2 : b2 < 256 := hl b2 (by simp)
    have hb3 : b3 < 256 := hl b3 (by simp)
    simp only [b64urlEncode, List.mem_cons] at hc
    rcases hc with rfl | rfl | rfl | rfl | hc
    · exact ⟨_, by omega, rfl⟩
    · exact ⟨_, by omega, rfl⟩
    · exact ⟨_, by omega, rfl⟩
    · exact ⟨_, by omega, rfl⟩
    · exact ih (fun b hb => hl b (by simp [hb])) c hc

/-- No alphabet character is the segment separator. -/
theorem b64Char_ne_dot (n : Nat) (h : n < 64) : b64Char n ≠ '.' := by
  have hall : ∀ m : Fin 64, b64Char m.val ≠ '.' := by decide
  exact hall ⟨n, h⟩

/-- The separator never occurs inside an encoded segment. -/
theorem dot_not_mem_b64urlEncode (l : Bytes) (hl : ∀ b ∈ l, b < 256) :
    '.' ∉ b64urlEncode l := by
  intro hmem
  obtain ⟨n, hn, heq⟩ := mem_b64urlEncode l hl '.' hmem
  exact b64Char_ne_dot n hn heq.symm

/-- Encoding a nonempty byte string gives a nonempty segment. -/
theorem b64urlEncode_ne_nil (l : Bytes) (h : l ≠ []) : b64urlEncode l ≠ [] := by
  match l with
  | [] => exact absurd rfl h
  | [b1] => simp [b64urlEncode]
  | [b1, b2] => simp [b64urlEncode]
  | b1 :: b2 :: b3 :: rest => simp [b64urlEncode]

/-- `b64Val` inverts `b64Char` on the alphabet. -/
theorem b64Val_b64Char (n : Nat) (h : n < 64) : b64Val (b64Char n) = n := by
  have hall : ∀ m : Fin 64, b64Val (b64Char m.val) = m.val := by decide
  exact hall ⟨n, h⟩

/-- Decoding inverts encoding on byte strings: each segment of the token
is a genuine unpadded base64url encoding of its source bytes. -/
theorem b64urlDecode_encode (l : Bytes) (hl : ∀ b ∈ l, b < 256) :
    b64urlDecode (b64urlEncode l) = l := by
  induction l using b64urlEncode.induct with
  | case1 => simp [b64urlEncode, b64urlDecode]
  | case2 b1 =>
    have hb1 : b1 < 256 := hl b1 (by simp)
    simp only [b64urlEncode, b64urlDecode]
    rw [b64Val_b64Char _ (by omega), b64Val_b64Char _ (by omega)]
    congr 1
    omega
  | case3 b1 b2 =>
    have hb1 : b1 < 256 := hl b1 (by simp)
    have hb2 : b2 < 256 := hl b2 (by simp)
    simp only [b64urlEncode, b64urlDecode]
    rw [b64Val_b64Char _ (by omega), b64Val_b64Char _ (by omega),
      b64Val_b64Char _ (by omega)]
    congr 1
    · omega
    · congr 1
      omega
  | case4 b1 b2 b3 rest ih =>
    have hb1 : b1 < 256 := hl b1 (by simp)
    have hb2 : b2 < 256 := hl b2 (by simp)
    have hb3 : b3 < 256 := hl b3 (by simp)
    simp only [b64urlEncode, b64urlDecode]
    rw [b64Val_b64Char _ (by omega), b64Val_b64Char _ (by omega),
      b64Val_b64Char _ (by omega), b64Val_b64Char _ (by omega)]
    have hrest := ih (fun b hb => hl b (by simp [hb]))
    congr 1
    · omega
    · congr 1
      · omega
      · congr 1
        omega

/-- Splitting a string on `'.'` (Python `token.split(".")`), used to state
that the token has exactly three segments. -/
def splitOnDot : Str → List Str
  | [] => [[]]
  | c :: rest =>
    if c = '.' then [] :: splitOnDot rest
    else
      match splitOnDot rest with
      | [] => [[c]]
      | seg :: segs => (c :: seg) :: segs

/-- A dot-free string is a single segment. -/
theorem splitOnDot_no_dot (a : Str) (h : '.' ∉ a) : splitOnDot a = [a] := by
  induction a with
  | nil => rfl
  | cons c rest ih =>
    have hc : c ≠ '.' := fun hc => h (by simp [hc])
    have hrest : '.' ∉ rest := fun hr => h (by simp [hr])
    simp only [splitOnDot, if_neg hc, ih hrest]

/-- Splitting after a dot-free prefix peels one segment. -/
theorem splitOnDot_append (a rest : Str) (h : '.' ∉ a) :
    splitOnDot (a ++ '.' :: rest) = a :: splitOnDot rest := by
  induction a with
  | nil => simp [splitOnDot]
  | cons c a' ih =>
    have hc : c ≠ '.' := fun hc => h (by simp [hc])
    have ha' : '.' ∉ a' := fun hr => h (by simp [hr])
    simp only [List.cons_append, splitOnDot, if_neg hc, List.append_eq, ih ha']

/-- `json.dumps` of a dict is never the empty string. -/
theorem jsonDumps_jobj_ne_nil (kvs : List (Str × JVal)) : jsonDumps (.jobj kvs) ≠ [] := by
  simp [jsonDumps]

/-- C1: for every key_id, valid-hex key_secret and call time t, the token
builder returns three non-empty dot-joined segments, each unpadded
base64url, whose first segment decodes to the UTF-8 JSON of the fixed
header dict with the given kid, and whose second decodes to the payload
dict with iat = t, exp = t + 300 (so exp - iat = 300) and aud "/admin/". -/
theorem claim_C1 (key_id key_secret : Str) (t : Nat) (key : Bytes)
    (hkey : bytesFromHex? key_secret = some key) :
    ∃ h p s, create_token key_id key_secret t = some (h ++ '.' :: p ++ '.' :: s) ∧
      splitOnDot (h ++ '.' :: p ++ '.' :: s) = [h, p, s] ∧
      h ≠ [] ∧ p ≠ [] ∧ s ≠ [] ∧
      b64urlDecode h = strBytes (jsonDumps (JVal.jobj
        [("alg".data, .jstr "HS256".data), ("typ".data, .jstr "JWT".data),
         ("kid".data, .jstr key_id)])) ∧
      b64urlDecode p = strBytes (jsonDumps (JVal.jobj
        [("iat".data, .jint t), ("exp".data, .jint (t + 300)),
         ("aud".data, .jstr "/admin/".data)])) ∧
      (t + 300) - t = 300 := by
  have hh : '.' ∉ b64encodeObj (tokenHeader key_id) :=
    dot_not_mem_b64urlEncode _ (strBytes_lt _)
  have hp : '.' ∉ b64encodeObj (tokenPayload t) :=
    dot_not_mem_b64urlEncode _ (strBytes_lt _)
  have hs : '.' ∉ b64urlEncode (hmacSha256 key
      (strBytes (b64encodeObj (tokenHeader key_id) ++ '.' :: b64encodeObj (tokenPayload t)))) :=
    dot_not_mem_b64urlEncode _ (hmacSha256_lt _ _)
  refine ⟨b64encodeObj (tokenHeader key_id), b64encodeObj (tokenPayload t),
    b64urlEncode (hmacSha256 key
      (strBytes (b64encodeObj (tokenHeader key_id) ++ '.' :: b64encodeObj (tokenPayload t)))),
    ?_, ?_, ?_, ?_, ?_, ?_, ?_, ?_⟩
  · simp only [create_token, hkey]
  · rw [List.append_assoc, List.cons_append, splitOnDot_append _ _ hh,
      splitOnDot_append _ _ hp, splitOnDot_no_dot _ hs]
  · exact b64urlEncode_ne_nil _ (strBytes_ne_nil _ (jsonDumps_jobj_ne_nil _))
  · exact b64urlEncode_ne_nil _ (strBytes_ne_nil _ (jsonDumps_jobj_ne_nil _))
  · refine b64urlEncode_ne_nil _ ?_
    intro h0
    exact sha256_ne_nil _ (by simpa [hmacSha256] using h0)
  · exact b64urlDecode_encode _ (strBytes_lt _)
  · exact b64urlDecode_encode _ (strBytes_lt _)
  · omega

/-- Witness for C1 at key_id "k", key_secret "0a", t = 5. -/
theorem claim_C1_witness :
    bytesFromHex? "0a".data = some [10] ∧
    (∃ h p s, create_token "k".data "0a".data 5 = some (h ++ '.' :: p ++ '.' :: s) ∧
      splitOnDot (h ++ '.' :: p ++ '.' :: s) = [h, p, s] ∧
      h ≠ [] ∧ p ≠ [] ∧ s ≠ [] ∧
      b64urlDecode h = strBytes (jsonDumps (JVal.jobj
        [("alg".data, .jstr "HS256".data), ("typ".data, .jstr "JWT".data),
         ("kid".data, .jstr "k".data)])) ∧
      b64urlDecode p = strBytes (jsonDumps (JVal.jobj
        [("iat".data, .jint 5), ("exp".data, .jint (5 + 300)),
         ("aud".data, .jstr "/admin/".data)])) ∧
      (5 + 300) - 5 = 300) :=
  ⟨rfl, claim_C1 "k".data "0a".data 5 [10] rfl⟩

/-- C2: re-computing the HMAC-SHA256 of "header.payload" with the
hex-decoded secret and base64url-encoding it unpadded reproduces the third
segment of the produced token exactly. -/
theorem claim_C2 (key_id key_secret : Str) (t : Nat) (key : Bytes)
    (hkey : bytesFromHex? key_secret = some key) :
    ∃ h p s, create_token key_id key_secret t = some (h ++ '.' :: p ++ '.' :: s) ∧
      splitOnDot (h ++ '.' :: p ++ '.' :: s) = [h, p, s] ∧
      s = b64urlEncode (hmacSha256 key (strBytes (h ++ '.' :: p))) := by
  have hh : '.' ∉ b64encodeObj (tokenHeader key_id) :=
    dot_not_mem_b64urlEncode _ (strBytes_lt _)
  have hp : '.' ∉ b64encodeObj (tokenPayload t) :=
    dot_not_mem_b64urlEncode _ (strBytes_lt _)
  have hs : '.' ∉ b64urlEncode (hmacSha256 key
      (strBytes (b64encodeObj (tokenHeader key_id) ++ '.' :: b64encodeObj (tokenPayload t)))) :=
    dot_not_mem_b64urlEncode _ (hmacSha256_lt _ _)
  refine ⟨b64encodeObj (tokenHeader key_id), b64encodeObj (tokenPayload t),
    b64urlEncode (hmacSha256 key
      (strBytes (b64encodeObj (tokenHeader key_id) ++ '.' :: b64encodeObj (tokenPayload t)))),
    ?_, ?_, rfl⟩
  · simp only [create_token, hkey]
  · rw [List.append_assoc, List.cons_append, splitOnDot_append _ _ hh,
      splitOnDot_append _ _ hp, splitOnDot_no_dot _ hs]

/-- Witness for C2 at key_id "kid2", key_secret "0a", t = 7. -/
theorem claim_C2_witness :
    bytesFromHex? "0a".data = some [10] ∧
    (∃ h p s, create_token "kid2".data "0a".data 7 = some (h ++ '.' :: p ++ '.' :: s) ∧
      splitOnDot (h ++ '.' :: p ++ '.' :: s) = [h, p, s] ∧
      s = b64urlEncode (hmacSha256 [10] (strBytes (h ++ '.' :: p)))) :=
  ⟨rfl, claim_C2 "kid2".data "0a".data 7 [10] rfl⟩

/-! ### Result-shape lemmas: every operation returns a `json.dumps` string -/

/-- A returned value that is the serialization of some JSON value. -/
def isDumps (r : Except PyExn Str) : Prop := ∃ j : JVal, r = Except.ok (jsonDumps j)

/-- Both exception handlers return serialized error envelopes. -/
theorem isDumps_handle (e : PyExn) : isDumps (Except.ok (handleExc e)) := by
  cases e with
  | reqExn m r => exact ⟨_, rfl⟩
  | plainExn m => exact ⟨_, rfl⟩

/-- A directly serialized value is a serialized value. -/
theorem isDumps_ok (j : JVal) : isDumps (Except.ok (jsonDumps j)) := ⟨j, rfl⟩

/-- The hardcoded secret is valid hex, so token construction always
succeeds in situ and the unreachable `finally`-raises corner never fires. -/
theorem create_token_admin_isSome (t : Nat) :
    ∃ tok, create_token ghost_admin_id ghost_admin_secret t = some tok := by
  have h : (bytesFromHex? ghost_admin_secret).isSome = true := by decide
  obtain ⟨key, hkey⟩ := Option.isSome_iff_exists.mp h
  refine ⟨b64encodeObj (tokenHeader ghost_admin_id) ++ '.' :: b64encodeObj (tokenPayload t) ++
    '.' :: b64urlEncode (hmacSha256 key (strBytes (b64encodeObj (tokenHeader ghost_admin_id) ++
      '.' :: b64encodeObj (tokenPayload t)))), ?_⟩
  simp only [create_token, hkey]

/-- `update_ghost_post` always returns a JSON string. -/
theorem update_ghost_post_isDumps (env : Env) (t : Nat) (u : Option Str) (pid : Str)
    (ti co st : Option Str) (tg : Option (List JVal)) (fe : Option Bool) :
    isDumps (update_ghost_post env t u pid ti co st tg fe).1 := by
  obtain ⟨tok, htok⟩ := create_token_admin_isSome t
  simp only [update_ghost_post, htok]
  (repeat' split) <;> first | exact isDumps_ok _ | exact isDumps_handle _

/-- `update_ghost_page` always returns a JSON string. -/
theorem update_ghost_page_isDumps (env : Env) (t : Nat) (u : Option Str) (pid : Str)
    (ti co st : Option Str) (fe : Option Bool) :
    isDumps (update_ghost_page env t u pid ti co st fe).1 := by
  obtain ⟨tok, htok⟩ := create_token_admin_isSome t
  simp only [update_ghost_page, htok]
  (repeat' split) <;> first | exact isDumps_ok _ | exact isDumps_handle _

/-- `update_ghost_tag` always returns a JSON string. -/
theorem update_ghost_tag_isDumps (env : Env) (t : Nat) (u : Option Str) (tid : Str)
    (nm de ac vi : Option Str) :
    isDumps (update_ghost_tag env t u tid nm de ac vi).1 := by
  obtain ⟨tok, htok⟩ := create_token_admin_isSome t
  simp only [update_ghost_tag, htok]
  (repeat' split) <;> first | exact isDumps_ok _ | exact isDumps_handle _

/-- `delete_ghost_post` always returns a JSON string. -/
theorem delete_ghost_post_isDumps (env : Env) (t : Nat) (u : Option Str) (pid : Str) :
    isDumps (delete_ghost_post env t u pid).1 := by
  obtain ⟨tok, htok⟩ := create_token_admin_isSome t
  simp only [delete_ghost_post, htok]
  (repeat' split) <;> first | exact isDumps_ok _ | exact isDumps_handle _

/-- `delete_ghost_page` always returns a JSON string. -/
theorem delete_ghost_page_isDumps (env : Env) (t : Nat) (u : Option Str) (pid : Str) :
    isDumps (delete_ghost_page env t u pid).1 := by
  obtain ⟨tok, htok⟩ := create_token_admin_isSome t
  simp only [delete_ghost_page, htok]
  (repeat' split) <;> first | exact isDumps_ok _ | exact isDumps_handle _

/-- `delete_ghost_tag` always returns a JSON string. -/
theorem delete_ghost_tag_isDumps (env : Env) (t : Nat) (u : Option Str) (tid : Str) :
    isDumps (delete_ghost_tag env t u tid).1 := by
  obtain ⟨tok, htok⟩ := create_token_admin_isSome t
  simp only [delete_ghost_tag, htok]
  (repeat' split) <;> first | exact isDumps_ok _ | exact isDumps_handle _

/-- `create_ghost_post` always returns a JSON string. -/
theorem create_ghost_post_isDumps (env : Env) (t : Nat) (u : Option Str)
    (ti co st : Str) (tg : Option (List JVal)) (fe : Bool) :
    isDumps (create_ghost_post env t u ti co st tg fe).1 := by
  obtain ⟨tok, htok⟩ := create_token_admin_isSome t
  simp only [create_ghost_post, htok]
  (repeat' split) <;> first | exact isDumps_ok _ | exact isDumps_handle _

/-- `create_ghost_page` always returns a JSON string. -/
theorem create_ghost_page_isDumps (env : Env) (t : Nat) (u : Option Str)
    (ti co st : Str) (fe : Bool) :
    isDumps (create_ghost_page env t u ti co st fe).1 := by
  obtain ⟨tok, htok⟩ := create_token_admin_isSome t
  simp only [create_ghost_page, htok]
  (repeat' split) <;> first | exact isDumps_ok _ | exact isDumps_handle _

/-- `create_ghost_tag` always returns a JSON string. -/
theorem create_ghost_tag_isDumps (env : Env) (t : Nat) (u : Option Str)
    (nm : Str) (de ac : Option Str) (vi : Str) :
    isDumps (create_ghost_tag env t u nm de ac vi).1 := by
  obtain ⟨tok, htok⟩ := create_token_admin_isSome t
  simp only [create_ghost_tag, htok]
  (repeat' split) <;> first | exact isDumps_ok _ | exact isDumps_handle _

/-- `list_ghost_tags` always returns a JSON string. -/
theorem list_ghost_tags_isDumps (env : Env) (t : Nat) (u : Option Str)
    (page : PyIntOrStr) (limit : Int) (incl : Str) :
    isDumps (list_ghost_tags env t u page limit incl).1 := by
  obtain ⟨tok, htok⟩ := create_token_admin_isSome t
  simp only [list_ghost_tags, htok]
  (repeat' split) <;> first | exact isDumps_ok _ | exact isDumps_handle _

/-- `list_ghost_pages` always returns a JSON string. -/
theorem list_ghost_pages_isDumps (env : Env) (t : Nat) (u : Option Str)
    (page : PyIntOrStr) (limit : Int) (status : Option Str) (incl : Str) :
    isDumps (list_ghost_pages env t u page limit status incl).1 := by
  obtain ⟨tok, htok⟩ := create_token_admin_isSome t
  simp only [list_ghost_pages, htok]
  (repeat' split) <;> first | exact isDumps_ok _ | exact isDumps_handle _

/-- C3: every operation, on every input and every remote behaviour
(transport failures, error statuses, malformed JSON bodies included),
returns a string that is the `json.dumps` serialization of some JSON
value, and no exception escapes to the caller. -/
theorem claim_C3 :
    (∀ env t u pid ti co st tg fe, isDumps (update_ghost_post env t u pid ti co st tg fe).1) ∧
    (∀ env t u pid ti co st fe, isDumps (update_ghost_page env t u pid ti co st fe).1) ∧
    (∀ env t u tid nm de ac vi, isDumps (update_ghost_tag env t u tid nm de ac vi).1) ∧
    (∀ env t u pid, isDumps (delete_ghost_post env t u pid).1) ∧
    (∀ env t u pid, isDumps (delete_ghost_page env t u pid).1) ∧
    (∀ env t u tid, isDumps (delete_ghost_tag env t u tid).1) ∧
    (∀ env t u ti co st tg fe, isDumps (create_ghost_post env t u ti co st tg fe).1) ∧
    (∀ env t u ti co st fe, isDumps (create_ghost_page env t u ti co st fe).1) ∧
    (∀ env t u nm de ac vi, isDumps (create_ghost_tag env t u nm de ac vi).1) ∧
    (∀ env t u page limit incl, isDumps (list_ghost_tags env t u page limit incl).1) ∧
    (∀ env t u page limit status incl, isDumps (list_ghost_pages env t u page limit status incl).1) :=
  ⟨update_ghost_post_isDumps, update_ghost_page_isDumps, update_ghost_tag_isDumps,
   delete_ghost_post_isDumps, delete_ghost_page_isDumps, delete_ghost_tag_isDumps,
   create_ghost_post_isDumps, create_ghost_page_isDumps, create_ghost_tag_isDumps,
   list_ghost_tags_isDumps, list_ghost_pages_isDumps⟩

/-- A descriptor object carrying `name`, `description` and `args` keys. -/
def hasDescriptorKeys (j : JVal) : Prop :=
  ∃ kvs, j = JVal.jobj kvs ∧ (lookupStr kvs "name".data).isSome = true ∧
    (lookupStr kvs "description".data).isSome = true ∧
    (lookupStr kvs "args".data).isSome = true

/-- Every `toolInfo` value is a well-keyed descriptor. -/
theorem hasDescriptorKeys_toolInfo (nm de : Str) (args : List (Str × JVal)) :
    hasDescriptorKeys (toolInfo nm de args) := ⟨_, rfl, rfl, rfl, rfl⟩

/-- C4: invoking any operation with its primary argument equal to the
sentinel `"__tool_info__"` returns exactly the serialized static
descriptor (an object with `name`, `description` and `args` keys) and
issues no request, regardless of the environment and of every other
argument. -/
theorem claim_C4 :
    (∀ env t u ti co st tg fe, update_ghost_post env t u toolInfoSentinel ti co st tg fe =
      (Except.ok (jsonDumps update_ghost_post_info), [])) ∧
    hasDescriptorKeys update_ghost_post_info ∧
    (∀ env t u ti co st fe, update_ghost_page env t u toolInfoSentinel ti co st fe =
      (Except.ok (jsonDumps update_ghost_page_info), [])) ∧
    hasDescriptorKeys update_ghost_page_info ∧
    (∀ env t u nm de ac vi, update_ghost_tag env t u toolInfoSentinel nm de ac vi =
      (Except.ok (jsonDumps update_ghost_tag_info), [])) ∧
    hasDescriptorKeys update_ghost_tag_info ∧
    (∀ env t u, delete_ghost_post env t u toolInfoSentinel =
      (Except.ok (jsonDumps delete_ghost_post_info), [])) ∧
    hasDescriptorKeys delete_ghost_post_info ∧
    (∀ env t u, delete_ghost_page env t u toolInfoSentinel =
      (Except.ok (jsonDumps delete_ghost_page_info), [])) ∧
    hasDescriptorKeys delete_ghost_page_info ∧
    (∀ env t u, delete_ghost_tag env t u toolInfoSentinel =
      (Except.ok (jsonDumps delete_ghost_tag_info), [])) ∧
    hasDescriptorKeys delete_ghost_tag_info ∧
    (∀ env t u co st tg fe, create_ghost_post env t u toolInfoSentinel co st tg fe =
      (Except.ok (jsonDumps create_ghost_post_info), [])) ∧
    hasDescriptorKeys create_ghost_post_info ∧
    (∀ env t u co st fe, create_ghost_page env t u toolInfoSentinel co st fe =
      (Except.ok (jsonDumps create_ghost_page_info), [])) ∧
    hasDescriptorKeys create_ghost_page_info ∧
    (∀ env t u de ac vi, create_ghost_tag env t u toolInfoSentinel de ac vi =
      (Except.ok (jsonDumps create_ghost_tag_info), [])) ∧
    hasDescriptorKeys create_ghost_tag_info ∧
    (∀ env t u limit incl, list_ghost_tags env t u (.str toolInfoSentinel) limit incl =
      (Except.ok (jsonDumps list_ghost_tags_info), [])) ∧
    hasDescriptorKeys list_ghost_tags_info ∧
    (∀ env t u limit status incl, list_ghost_pages env t u (.str toolInfoSentinel) limit status incl =
      (Except.ok (jsonDumps list_ghost_pages_info), [])) ∧
    hasDescriptorKeys list_ghost_pages_info := by
  refine ⟨?_, ?_, ?_, ?_, ?_, ?_, ?_, ?_, ?_, ?_, ?_, ?_, ?_, ?_, ?_, ?_, ?_, ?_, ?_, ?_, ?_, ?_⟩ <;>
    first
      | exact hasDescriptorKeys_toolInfo _ _ _
      | (intros; rfl)

/-! ### Read-modify-write: not-found fast path and PUT body shape -/

/-- The GET request `update_ghost_post` issues first. -/
def updatePostGetReq (u : Option Str) (pid : Str) : Request :=
  ⟨"GET".data, rstripSlashes (u.getD "https://blog.emmanuelu.com".data) ++
    "/ghost/api/admin/posts/".data ++ pid, none, none⟩

/-- The GET request `update_ghost_page` issues first. -/
def updatePageGetReq (u : Option Str) (pid : Str) : Request :=
  ⟨"GET".data, rstripSlashes (u.getD "https://blog.emmanuelu.com".data) ++
    "/ghost/api/admin/pages/".data ++ pid, none, none⟩

/-- The GET request `update_ghost_tag` issues first. -/
def updateTagGetReq (u : Option Str) (tid : Str) : Request :=
  ⟨"GET".data, rstripSlashes (u.getD "https://blog.emmanuelu.com".data) ++
    "/ghost/api/admin/tags/".data ++ tid, none, none⟩

/-- `update_ghost_post` with a successful GET whose body has no usable
`posts` entry returns the not-found envelope after the GET alone. -/
theorem update_ghost_post_notFound (env : Env) (t : Nat) (u : Option Str) (pid : Str)
    (ti co st : Option Str) (tg : Option (List JVal)) (fe : Option Bool)
    (st' : Nat) (text : Str) (kvs : List (Str × JVal))
    (h1 : pid ≠ toolInfoSentinel) (h2 : pid ≠ [])
    (henv : env (updatePostGetReq u pid) = .resp st' text (some (.jobj kvs)))
    (hst : st' < 400)
    (hlook : lookupStr kvs "posts".data = none ∨ lookupStr kvs "posts".data = some (.jarr [])) :
    update_ghost_post env t u pid ti co st tg fe =
      (Except.ok (jsonDumps (errObj ("Post ".data ++ pid ++ " not found".data))),
        [updatePostGetReq u pid]) := by
  obtain ⟨tok, htok⟩ := create_token_admin_isSome t
  have henv' : env ⟨"GET".data, rstripSlashes (u.getD "https://blog.emmanuelu.com".data) ++
      "/ghost/api/admin/posts/".data ++ pid, none, none⟩ =
      HttpOutcome.resp st' text (some (.jobj kvs)) := henv
  have hrs : raiseForStatus st' text = none := by
    unfold raiseForStatus
    rw [if_neg (by omega)]
  simp only [update_ghost_post, htok, if_neg h1, if_neg h2, henv', hrs]
  rcases hlook with hlook | hlook <;> simp only [hlook] <;> rfl

/-- `update_ghost_page` with a successful GET whose body has no usable
`pages` entry returns the not-found envelope after the GET alone. -/
theorem update_ghost_page_notFound (env : Env) (t : Nat) (u : Option Str) (pid : Str)
    (ti co st : Option Str) (fe : Option Bool)
    (st' : Nat) (text : Str) (kvs : List (Str × JVal))
    (h1 : pid ≠ toolInfoSentinel) (h2 : pid ≠ [])
    (henv : env (updatePageGetReq u pid) = .resp st' text (some (.jobj kvs)))
    (hst : st' < 400)
    (hlook : lookupStr kvs "pages".data = none ∨ lookupStr kvs "pages".data = some (.jarr [])) :
    update_ghost_page env t u pid ti co st fe =
      (Except.ok (jsonDumps (errObj ("Page ".data ++ pid ++ " not found".data))),
        [updatePageGetReq u pid]) := by
  obtain ⟨tok, htok⟩ := create_token_admin_isSome t
  have henv' : env ⟨"GET".data, rstripSlashes (u.getD "https://blog.emmanuelu.com".data) ++
      "/ghost/api/admin/pages/".data ++ pid, none, none⟩ =
      HttpOutcome.resp st' text (some (.jobj kvs)) := henv
  have hrs : raiseForStatus st' text = none := by
    unfold raiseForStatus
    rw [if_neg (by omega)]
  simp only [update_ghost_page, htok, if_neg h1, if_neg h2, henv', hrs]
  rcases hlook with hlook | hlook <;> simp only [hlook] <;> rfl

/-- `update_ghost_tag` with a successful GET whose body has no usable
`tags` entry returns the not-found envelope after the GET alone. -/
theorem update_ghost_tag_notFound (env : Env) (t : Nat) (u : Option Str) (tid : Str)
    (nm de ac vi : Option Str)
    (st' : Nat) (text : Str) (kvs : List (Str × JVal))
    (h1 : tid ≠ toolInfoSentinel) (h2 : tid ≠ [])
    (henv : env (updateTagGetReq u tid) = .resp st' text (some (.jobj kvs)))
    (hst : st' < 400)
    (hlook : lookupStr kvs "tags".data = none ∨ lookupStr kvs "tags".data = some (.jarr [])) :
    update_ghost_tag env t u tid nm de ac vi =
      (Except.ok (jsonDumps (errObj ("Tag ".data ++ tid ++ " not found".data))),
        [updateTagGetReq u tid]) := by
  obtain ⟨tok, htok⟩ := create_token_admin_isSome t
  have henv' : env ⟨"GET".data, rstripSlashes (u.getD "https://blog.emmanuelu.com".data) ++
      "/ghost/api/admin/tags/".data ++ tid, none, none⟩ =
      HttpOutcome.resp st' text (some (.jobj kvs)) := henv
  have hrs : raiseForStatus st' text = none := by
    unfold raiseForStatus
    rw [if_neg (by omega)]
  simp only [update_ghost_tag, htok, if_neg h1, if_neg h2, henv', hrs]
  rcases hlook with hlook | hlook <;> simp only [hlook] <;> rfl

/-- C5: for each update operation, when the initial GET succeeds but its
body holds no entry under the resource key (key absent or empty list),
the operation returns the "not found" error envelope and the GET is the
only request issued — no PUT follows. -/
theorem claim_C5 :
    (∀ env t u pid ti co st tg fe st' text kvs, pid ≠ toolInfoSentinel → pid ≠ [] →
      env (updatePostGetReq u pid) = .resp st' text (some (.jobj kvs)) → st' < 400 →
      (lookupStr kvs "posts".data = none ∨ lookupStr kvs "posts".data = some (.jarr [])) →
      update_ghost_post env t u pid ti co st tg fe =
        (Except.ok (jsonDumps (errObj ("Post ".data ++ pid ++ " not found".data))),
          [updatePostGetReq u pid])) ∧
    (∀ env t u pid ti co st fe st' text kvs, pid ≠ toolInfoSentinel → pid ≠ [] →
      env (updatePageGetReq u pid) = .resp st' text (some (.jobj kvs)) → st' < 400 →
      (lookupStr kvs "pages".data = none ∨ lookupStr kvs "pages".data = some (.jarr [])) →
      update_ghost_page env t u pid ti co st fe =
        (Except.ok (jsonDumps (errObj ("Page ".data ++ pid ++ " not found".data))),
          [updatePageGetReq u pid])) ∧
    (∀ env t u tid nm de ac vi st' text kvs, tid ≠ toolInfoSentinel → tid ≠ [] →
      env (updateTagGetReq u tid) = .resp st' text (some (.jobj kvs)) → st' < 400 →
      (lookupStr kvs "tags".data = none ∨ lookupStr kvs "tags".data = some (.jarr [])) →
      update_ghost_tag env t u tid nm de ac vi =
        (Except.ok (jsonDumps (errObj ("Tag ".data ++ tid ++ " not found".data))),
          [updateTagGetReq u tid])) :=
  ⟨fun env t u pid ti co st tg fe st' text kvs h1 h2 henv hst hlook =>
    update_ghost_post_notFound env t u pid ti co st tg fe st' text kvs h1 h2 henv hst hlook,
   fun env t u pid ti co st fe st' text kvs h1 h2 henv hst hlook =>
    update_ghost_page_notFound env t u pid ti co st fe st' text kvs h1 h2 henv hst hlook,
   fun env t u tid nm de ac vi st' text kvs h1 h2 henv hst hlook =>
    update_ghost_tag_notFound env t u tid nm de ac vi st' text kvs h1 h2 henv hst hlook⟩

/-- Witness for C5: a remote answering 200 with an empty object (posts
key absent) for all three update operations, id "x". -/
theorem claim_C5_witness :
    ("x".data ≠ toolInfoSentinel ∧ "x".data ≠ ([] : Str) ∧ (200 : Nat) < 400 ∧
      (fun _ : Request => HttpOutcome.resp 200 [] (some (.jobj []))) (updatePostGetReq none "x".data) =
        .resp 200 [] (some (.jobj [])) ∧
      lookupStr ([] : List (Str × JVal)) "posts".data = none) ∧
    update_ghost_post (fun _ => .resp 200 [] (some (.jobj []))) 0 none "x".data
        none none none none none =
      (Except.ok (jsonDumps (errObj ("Post ".data ++ "x".data ++ " not found".data))),
        [updatePostGetReq none "x".data]) ∧
    update_ghost_page (fun _ => .resp 200 [] (some (.jobj []))) 0 none "x".data
        none none none none =
      (Except.ok (jsonDumps (errObj ("Page ".data ++ "x".data ++ " not found".data))),
        [updatePageGetReq none "x".data]) ∧
    update_ghost_tag (fun _ => .resp 200 [] (some (.jobj []))) 0 none "x".data
        none none none none =
      (Except.ok (jsonDumps (errObj ("Tag ".data ++ "x".data ++ " not found".data))),
        [updateTagGetReq none "x".data]) :=
  ⟨⟨by decide, by decide, by decide, rfl, rfl⟩,
   claim_C5.1 _ 0 none "x".data none none none none none 200 [] []
     (by decide) (by decide) rfl (by decide) (Or.inl rfl),
   claim_C5.2.1 _ 0 none "x".data none none none none 200 [] []
     (by decide) (by decide) rfl (by decide) (Or.inl rfl),
   claim_C5.2.2 _ 0 none "x".data none none none none 200 [] []
     (by decide) (by decide) rfl (by decide) (Or.inl rfl)⟩

/-! ### Delete: 204 success synthesis -/

/-- The DELETE request `delete_ghost_post` issues. -/
def deletePostReq (u : Option Str) (pid : Str) : Request :=
  ⟨"DELETE".data, rstripSlashes (u.getD "http://192.168.50.80:8083".data) ++
    "/ghost/api/admin/posts/".data ++ pid, none, none⟩

/-- The DELETE request `delete_ghost_page` issues. -/
def deletePageReq (u : Option Str) (pid : Str) : Request :=
  ⟨"DELETE".data, rstripSlashes (u.getD "http://192.168.50.80:8083".data) ++
    "/ghost/api/admin/pages/".data ++ pid, none, none⟩

/-- The DELETE request `delete_ghost_tag` issues. -/
def deleteTagReq (u : Option Str) (tid : Str) : Request :=
  ⟨"DELETE".data, rstripSlashes (u.getD "http://192.168.50.80:8083".data) ++
    "/ghost/api/admin/tags/".data ++ tid, none, none⟩

/-- The synthesized `{"success": true, "message": "<Resource> <id> deleted
successfully"}` envelope. -/
def deleteSuccessObj (resource : Str) (ident : Str) : JVal :=
  .jobj [("success".data, .jbool true),
         ("message".data, .jstr (resource ++ ident ++ " deleted successfully".data))]

/-- `delete_ghost_post` on a 204 synthesizes the success envelope locally,
whatever (even undecodable) body the response carries. -/
theorem delete_ghost_post_204 (env : Env) (t : Nat) (u : Option Str) (pid : Str)
    (text : Str) (body : Option JVal)
    (h1 : pid ≠ toolInfoSentinel) (h2 : pid ≠ [])
    (henv : env (deletePostReq u pid) = .resp 204 text body) :
    delete_ghost_post env t u pid =
      (Except.ok (jsonDumps (deleteSuccessObj "Post ".data pid)), [deletePostReq u pid]) := by
  obtain ⟨tok, htok⟩ := create_token_admin_isSome t
  have henv' : env ⟨"DELETE".data, rstripSlashes (u.getD "http://192.168.50.80:8083".data) ++
      "/ghost/api/admin/posts/".data ++ pid, none, none⟩ = HttpOutcome.resp 204 text body := henv
  have hrs : raiseForStatus 204 text = none := by
    unfold raiseForStatus
    rw [if_neg (by omega)]
  simp only [delete_ghost_post, htok, if_neg h1, if_neg h2, henv', hrs]
  rfl

/-- `delete_ghost_page` on a 204 synthesizes the success envelope locally. -/
theorem delete_ghost_page_204 (env : Env) (t : Nat) (u : Option Str) (pid : Str)
    (text : Str) (body : Option JVal)
    (h1 : pid ≠ toolInfoSentinel) (h2 : pid ≠ [])
    (henv : env (deletePageReq u pid) = .resp 204 text body) :
    delete_ghost_page env t u pid =
      (Except.ok (jsonDumps (deleteSuccessObj "Page ".data pid)), [deletePageReq u pid]) := by
  obtain ⟨tok, htok⟩ := create_token_admin_isSome t
  have henv' : env ⟨"DELETE".data, rstripSlashes (u.getD "http://192.168.50.80:8083".data) ++
      "/ghost/api/admin/pages/".data ++ pid, none, none⟩ = HttpOutcome.resp 204 text body := henv
  have hrs : raiseForStatus 204 text = none := by
    unfold raiseForStatus
    rw [if_neg (by omega)]
  simp only [delete_ghost_page, htok, if_neg h1, if_neg h2, henv', hrs]
  rfl

/-- `delete_ghost_tag` on a 204 synthesizes the success envelope locally. -/
theorem delete_ghost_tag_204 (env : Env) (t : Nat) (u : Option Str) (tid : Str)
    (text : Str) (body : Option JVal)
    (h1 : tid ≠ toolInfoSentinel) (h2 : tid ≠ [])
    (henv : env (deleteTagReq u tid) = .resp 204 text body) :
    delete_ghost_tag env t u tid =
      (Except.ok (jsonDumps (deleteSuccessObj "Tag ".data tid)), [deleteTagReq u tid]) := by
  obtain ⟨tok, htok⟩ := create_token_admin_isSome t
  have henv' : env ⟨"DELETE".data, rstripSlashes (u.getD "http://192.168.50.80:8083".data) ++
      "/ghost/api/admin/tags/".data ++ tid, none, none⟩ = HttpOutcome.resp 204 text body := henv
  have hrs : raiseForStatus 204 text = none := by
    unfold raiseForStatus
    rw [if_neg (by omega)]
  simp only [delete_ghost_tag, htok, if_neg h1, if_neg h2, henv', hrs]
  rfl

/-- C6: every delete operation, when the DELETE comes back 204, returns
exactly the locally synthesized `{"success": true, "message": "<Resource>
<id> deleted successfully"}` JSON string, without decoding any body (the
conclusion holds for every body, decodable or not). -/
theorem claim_C6 :
    (∀ env t u pid text body, pid ≠ toolInfoSentinel → pid ≠ [] →
      env (deletePostReq u pid) = .resp 204 text body →
      delete_ghost_post env t u pid =
        (Except.ok (jsonDumps (deleteSuccessObj "Post ".data pid)), [deletePostReq u pid])) ∧
    (∀ env t u pid text body, pid ≠ toolInfoSentinel → pid ≠ [] →
      env (deletePageReq u pid) = .resp 204 text body →
      delete_ghost_page env t u pid =
        (Except.ok (jsonDumps (deleteSuccessObj "Page ".data pid)), [deletePageReq u pid])) ∧
    (∀ env t u tid text body, tid ≠ toolInfoSentinel → tid ≠ [] →
      env (deleteTagReq u tid) = .resp 204 text body →
      delete_ghost_tag env t u tid =
        (Except.ok (jsonDumps (deleteSuccessObj "Tag ".data tid)), [deleteTagReq u tid])) :=
  ⟨fun env t u pid text body h1 h2 henv => delete_ghost_post_204 env t u pid text body h1 h2 henv,
   fun env t u pid text body h1 h2 henv => delete_ghost_page_204 env t u pid text body h1 h2 henv,
   fun env t u tid text body h1 h2 henv => delete_ghost_tag_204 env t u tid text body h1 h2 henv⟩

/-- Witness for C6: a remote answering 204 with no decodable body, id "y". -/
theorem claim_C6_witness :
    ("y".data ≠ toolInfoSentinel ∧ "y".data ≠ ([] : Str) ∧
      (fun _ : Request => HttpOutcome.resp 204 [] none) (deletePostReq none "y".data) =
        .resp 204 [] none) ∧
    delete_ghost_post (fun _ => .resp 204 [] none) 0 none "y".data =
      (Except.ok (jsonDumps (deleteSuccessObj "Post ".data "y".data)), [deletePostReq none "y".data]) ∧
    delete_ghost_page (fun _ => .resp 204 [] none) 0 none "y".data =
      (Except.ok (jsonDumps (deleteSuccessObj "Page ".data "y".data)), [deletePageReq none "y".data]) ∧
    delete_ghost_tag (fun _ => .resp 204 [] none) 0 none "y".data =
      (Except.ok (jsonDumps (deleteSuccessObj "Tag ".data "y".data)), [deleteTagReq none "y".data]) :=
  ⟨⟨by decide, by decide, rfl⟩,
   claim_C6.1 _ 0 none "y".data [] none (by decide) (by decide) rfl,
   claim_C6.2.1 _ 0 none "y".data [] none (by decide) (by decide) rfl,
   claim_C6.2.2 _ 0 none "y".data [] none (by decide) (by decide) rfl⟩

/-- An empty `title` or `content` short-circuits `create_ghost_post`. -/
theorem create_ghost_post_required (env : Env) (t : Nat) (u : Option Str)
    (ti co st : Str) (tg : Option (List JVal)) (fe : Bool)
    (h1 : ti ≠ toolInfoSentinel) (h2 : ti = [] ∨ co = []) :
    create_ghost_post env t u ti co st tg fe =
      (Except.ok (jsonDumps (errObj "Title and content are required".data)), []) := by
  rcases h2 with rfl | rfl
  · rfl
  · unfold create_ghost_post
    rw [if_neg h1, if_pos (Or.inr rfl)]

/-- An empty `title` or `content` short-circuits `create_ghost_page`. -/
theorem create_ghost_page_required (env : Env) (t : Nat) (u : Option Str)
    (ti co st : Str) (fe : Bool)
    (h1 : ti ≠ toolInfoSentinel) (h2 : ti = [] ∨ co = []) :
    create_ghost_page env t u ti co st fe =
      (Except.ok (jsonDumps (errObj "Title and content are required".data)), []) := by
  rcases h2 with rfl | rfl
  · rfl
  · unfold create_ghost_page
    rw [if_neg h1, if_pos (Or.inr rfl)]

/-- C7: a missing (empty, non-sentinel) required argument makes each
operation return its validation error envelope with no request issued:
the entity id for updates and deletes, title/content for post and page
creation, the name for tag creation. -/
theorem claim_C7 :
    (∀ env t u ti co st tg fe, update_ghost_post env t u [] ti co st tg fe =
      (Except.ok (jsonDumps (errObj "Post ID is required".data)), [])) ∧
    (∀ env t u ti co st fe, update_ghost_page env t u [] ti co st fe =
      (Except.ok (jsonDumps (errObj "Page ID is required".data)), [])) ∧
    (∀ env t u nm de ac vi, update_ghost_tag env t u [] nm de ac vi =
      (Except.ok (jsonDumps (errObj "Tag ID is required".data)), [])) ∧
    (∀ env t u, delete_ghost_post env t u [] =
      (Except.ok (jsonDumps (errObj "Post ID is required".data)), [])) ∧
    (∀ env t u, delete_ghost_page env t u [] =
      (Except.ok (jsonDumps (errObj "Page ID is required".data)), [])) ∧
    (∀ env t u, delete_ghost_tag env t u [] =
      (Except.ok (jsonDumps (errObj "Tag ID is required".data)), [])) ∧
    (∀ env t u ti co st tg fe, ti ≠ toolInfoSentinel → (ti = [] ∨ co = []) →
      create_ghost_post env t u ti co st tg fe =
        (Except.ok (jsonDumps (errObj "Title and content are required".data)), [])) ∧
    (∀ env t u ti co st fe, ti ≠ toolInfoSentinel → (ti = [] ∨ co = []) →
      create_ghost_page env t u ti co st fe =
        (Except.ok (jsonDumps (errObj "Title and content are required".data)), [])) ∧
    (∀ env t u de ac vi, create_ghost_tag env t u [] de ac vi =
      (Except.ok (jsonDumps (errObj "Tag name is required".data)), [])) :=
  ⟨fun _ _ _ _ _ _ _ _ => rfl, fun _ _ _ _ _ _ _ => rfl, fun _ _ _ _ _ _ _ => rfl,
   fun _ _ _ => rfl, fun _ _ _ => rfl, fun _ _ _ => rfl,
   fun env t u ti co st tg fe h1 h2 => create_ghost_post_required env t u ti co st tg fe h1 h2,
   fun env t u ti co st fe h1 h2 => create_ghost_page_required env t u ti co st fe h1 h2,
   fun _ _ _ _ _ _ => rfl⟩

/-- Witness for C7: empty content with title "a" on the create operations
(the hypothesis-free conjuncts need no instantiation). -/
theorem claim_C7_witness :
    ("a".data ≠ toolInfoSentinel ∧ (("a".data : Str) = [] ∨ ([] : Str) = [])) ∧
    create_ghost_post (fun _ => .resp 200 [] none) 0 none "a".data [] "draft".data none false =
      (Except.ok (jsonDumps (errObj "Title and content are required".data)), []) ∧
    create_ghost_page (fun _ => .resp 200 [] none) 0 none "a".data [] "draft".data false =
      (Except.ok (jsonDumps (errObj "Title and content are required".data)), []) :=
  ⟨⟨by decide, Or.inr rfl⟩,
   claim_C7.2.2.2.2.2.2.1 _ 0 none "a".data [] "draft".data none false (by decide) (Or.inr rfl),
   claim_C7.2.2.2.2.2.2.2.1 _ 0 none "a".data [] "draft".data false (by decide) (Or.inr rfl)⟩

/-- `update_ghost_post` follows its GET with a PUT whose body holds, under
`posts`, one object of exactly the GET's `updated_at` plus each provided
optional argument. -/
theorem update_ghost_post_putBody (env : Env) (t : Nat) (u : Option Str) (pid : Str)
    (ti co st : Option Str) (tg : Option (List JVal)) (fe : Option Bool)
    (st' : Nat) (text : Str) (kvs p0kvs : List (Str × JVal)) (ps : List JVal) (upd : JVal)
    (h1 : pid ≠ toolInfoSentinel) (h2 : pid ≠ [])
    (henv : env (updatePostGetReq u pid) = .resp st' text (some (.jobj kvs)))
    (hst : st' < 400)
    (hlook : lookupStr kvs "posts".data = some (.jarr (JVal.jobj p0kvs :: ps)))
    (hupd : lookupStr p0kvs "updated_at".data = some upd) :
    (update_ghost_post env t u pid ti co st tg fe).2 =
      [updatePostGetReq u pid,
       ⟨"PUT".data, rstripSlashes (u.getD "https://blog.emmanuelu.com".data) ++
          "/ghost/api/admin/posts/".data ++ pid ++ "/?source=html".data, none,
        some (.jobj [("posts".data, .jarr [.jobj
          (("updated_at".data, upd) ::
            optStrField "title".data ti ++ optStrField "html".data co ++
            optStrField "status".data st ++ optBoolField "featured".data fe ++
            optListField "tags".data tg)])])⟩] := by
  obtain ⟨tok, htok⟩ := create_token_admin_isSome t
  have henv' : env ⟨"GET".data, rstripSlashes (u.getD "https://blog.emmanuelu.com".data) ++
      "/ghost/api/admin/posts/".data ++ pid, none, none⟩ =
      HttpOutcome.resp st' text (some (.jobj kvs)) := henv
  have hrs : raiseForStatus st' text = none := by
    unfold raiseForStatus
    rw [if_neg (by omega)]
  simp only [update_ghost_post, htok, if_neg h1, if_neg h2, henv', hrs, hlook,
    pyFalsy, List.isEmpty, pyLen, List.length_cons, hupd]
  (repeat' split) <;> first | rfl | (exfalso; simp_all [pyFalsy, pyLen])

/-- `update_ghost_page` follows its GET with a PUT whose body holds, under
`pages`, one object of exactly the GET's `updated_at` plus each provided
optional argument. -/
theorem update_ghost_page_putBody (env : Env) (t : Nat) (u : Option Str) (pid : Str)
    (ti co st : Option Str) (fe : Option Bool)
    (st' : Nat) (text : Str) (kvs p0kvs : List (Str × JVal)) (ps : List JVal) (upd : JVal)
    (h1 : pid ≠ toolInfoSentinel) (h2 : pid ≠ [])
    (henv : env (updatePageGetReq u pid) = .resp st' text (some (.jobj kvs)))
    (hst : st' < 400)
    (hlook : lookupStr kvs "pages".data = some (.jarr (JVal.jobj p0kvs :: ps)))
    (hupd : lookupStr p0kvs "updated_at".data = some upd) :
    (update_ghost_page env t u pid ti co st fe).2 =
      [updatePageGetReq u pid,
       ⟨"PUT".data, rstripSlashes (u.getD "https://blog.emmanuelu.com".data) ++
          "/ghost/api/admin/pages/".data ++ pid, none,
        some (.jobj [("pages".data, .jarr [.jobj
          (("updated_at".data, upd) ::
            optStrField "title".data ti ++ optStrField "html".data co ++
            optStrField "status".data st ++ optBoolField "featured".data fe)])])⟩] := by
  obtain ⟨tok, htok⟩ := create_token_admin_isSome t
  have henv' : env ⟨"GET".data, rstripSlashes (u.getD "https://blog.emmanuelu.com".data) ++
      "/ghost/api/admin/pages/".data ++ pid, none, none⟩ =
      HttpOutcome.resp st' text (some (.jobj kvs)) := henv
  have hrs : raiseForStatus st' text = none := by
    unfold raiseForStatus
    rw [if_neg (by omega)]
  simp only [update_ghost_page, htok, if_neg h1, if_neg h2, henv', hrs, hlook,
    pyFalsy, List.isEmpty, pyLen, List.length_cons, hupd]
  (repeat' split) <;> first | rfl | (exfalso; simp_all [pyFalsy, pyLen])

/-- `update_ghost_tag` follows its GET with a PUT whose body holds, under
`tags`, one object of exactly the GET's `updated_at` plus each provided
optional argument. -/
theorem update_ghost_tag_putBody (env : Env) (t : Nat) (u : Option Str) (tid : Str)
    (nm de ac vi : Option Str)
    (st' : Nat) (text : Str) (kvs p0kvs : List (Str × JVal)) (ps : List JVal) (upd : JVal)
    (h1 : tid ≠ toolInfoSentinel) (h2 : tid ≠ [])
    (henv : env (updateTagGetReq u tid) = .resp st' text (some (.jobj kvs)))
    (hst : st' < 400)
    (hlook : lookupStr kvs "tags".data = some (.jarr (JVal.jobj p0kvs :: ps)))
    (hupd : lookupStr p0kvs "updated_at".data = some upd) :
    (update_ghost_tag env t u tid nm de ac vi).2 =
      [updateTagGetReq u tid,
       ⟨"PUT".data, rstripSlashes (u.getD "https://blog.emmanuelu.com".data) ++
          "/ghost/api/admin/tags/".data ++ tid, none,
        some (.jobj [("tags".data, .jarr [.jobj
          (("updated_at".data, upd) ::
            optStrField "name".data nm ++ optStrField "description".data de ++
            optStrField "accent_color".data ac ++ optStrField "visibility".data vi)])])⟩] := by
  obtain ⟨tok, htok⟩ := create_token_admin_isSome t
  have henv' : env ⟨"GET".data, rstripSlashes (u.getD "https://blog.emmanuelu.com".data) ++
      "/ghost/api/admin/tags/".data ++ tid, none, none⟩ =
      HttpOutcome.resp st' text (some (.jobj kvs)) := henv
  have hrs : raiseForStatus st' text = none := by
    unfold raiseForStatus
    rw [if_neg (by omega)]
  simp only [update_ghost_tag, htok, if_neg h1, if_neg h2, henv', hrs, hlook,
    pyFalsy, List.isEmpty, pyLen, List.length_cons, hupd]
  (repeat' split) <;> first | rfl | (exfalso; simp_all [pyFalsy, pyLen])

/-- C8: each update operation's PUT body carries, under the resource key,
a single object whose fields are exactly the `updated_at` taken from the
GET plus each caller argument that was provided; `None` arguments
contribute nothing. -/
theorem claim_C8 :
    (∀ env t u pid ti co st tg fe st' text kvs p0kvs ps upd,
      pid ≠ toolInfoSentinel → pid ≠ [] →
      env (updatePostGetReq u pid) = .resp st' text (some (.jobj kvs)) → st' < 400 →
      lookupStr kvs "posts".data = some (.jarr (JVal.jobj p0kvs :: ps)) →
      lookupStr p0kvs "updated_at".data = some upd →
      (update_ghost_post env t u pid ti co st tg fe).2 =
        [updatePostGetReq u pid,
         ⟨"PUT".data, rstripSlashes (u.getD "https://blog.emmanuelu.com".data) ++
            "/ghost/api/admin/posts/".data ++ pid ++ "/?source=html".data, none,
          some (.jobj [("posts".data, .jarr [.jobj
            (("updated_at".data, upd) ::
              optStrField "title".data ti ++ optStrField "html".data co ++
              optStrField "status".data st ++ optBoolField "featured".data fe ++
              optListField "tags".data tg)])])⟩]) ∧
    (∀ env t u pid ti co st fe st' text kvs p0kvs ps upd,
      pid ≠ toolInfoSentinel → pid ≠ [] →
      env (updatePageGetReq u pid) = .resp st' text (some (.jobj kvs)) → st' < 400 →
      lookupStr kvs "pages".data = some (.jarr (JVal.jobj p0kvs :: ps)) →
      lookupStr p0kvs "updated_at".data = some upd →
      (update_ghost_page env t u pid ti co st fe).2 =
        [updatePageGetReq u pid,
         ⟨"PUT".data, rstripSlashes (u.getD "https://blog.emmanuelu.com".data) ++
            "/ghost/api/admin/pages/".data ++ pid, none,
          some (.jobj [("pages".data, .jarr [.jobj
            (("updated_at".data, upd) ::
              optStrField "title".data ti ++ optStrField "html".data co ++
              optStrField "status".data st ++ optBoolField "featured".data fe)])])⟩]) ∧
    (∀ env t u tid nm de ac vi st' text kvs p0kvs ps upd,
      tid ≠ toolInfoSentinel → tid ≠ [] →
      env (updateTagGetReq u tid) = .resp st' text (some (.jobj kvs)) → st' < 400 →
      lookupStr kvs "tags".data = some (.jarr (JVal.jobj p0kvs :: ps)) →
      lookupStr p0kvs "updated_at".data = some upd →
      (update_ghost_tag env t u tid nm de ac vi).2 =
        [updateTagGetReq u tid,
         ⟨"PUT".data, rstripSlashes (u.getD "https://blog.emmanuelu.com".data) ++
            "/ghost/api/admin/tags/".data ++ tid, none,
          some (.jobj [("tags".data, .jarr [.jobj
            (("updated_at".data, upd) ::
              optStrField "name".data nm ++ optStrField "description".data de ++
              optStrField "accent_color".data ac ++ optStrField "visibility".data vi)])])⟩]) :=
  ⟨fun env t u pid ti co st tg fe st' text kvs p0kvs ps upd h1 h2 henv hst hlook hupd =>
    update_ghost_post_putBody env t u pid ti co st tg fe st' text kvs p0kvs ps upd
      h1 h2 henv hst hlook hupd,
   fun env t u pid ti co st fe st' text kvs p0kvs ps upd h1 h2 henv hst hlook hupd =>
    update_ghost_page_putBody env t u pid ti co st fe st' text kvs p0kvs ps upd
      h1 h2 henv hst hlook hupd,
   fun env t u tid nm de ac vi st' text kvs p0kvs ps upd h1 h2 henv hst hlook hupd =>
    update_ghost_tag_putBody env t u tid nm de ac vi st' text kvs p0kvs ps upd
      h1 h2 henv hst hlook hupd⟩

/-- Witness for C8: a remote whose GET returns one post/page/tag carrying
`updated_at` "now", with only `title` (resp. `name`) provided; the PUT body
carries exactly `updated_at` and that one field. -/
theorem claim_C8_witness :
    ("z".data ≠ toolInfoSentinel ∧ "z".data ≠ ([] : Str) ∧ (200 : Nat) < 400 ∧
      lookupStr [("posts".data, JVal.jarr [.jobj [("updated_at".data, .jstr "now".data)]])]
        "posts".data = some (.jarr [JVal.jobj [("updated_at".data, .jstr "now".data)]]) ∧
      lookupStr [("updated_at".data, JVal.jstr "now".data)] "updated_at".data =
        some (.jstr "now".data)) ∧
    (update_ghost_post
        (fun _ => .resp 200 [] (some (.jobj
          [("posts".data, .jarr [.jobj [("updated_at".data, .jstr "now".data)]])])))
        0 none "z".data (some "T".data) none none none none).2 =
      [updatePostGetReq none "z".data,
       ⟨"PUT".data, rstripSlashes ((none : Option Str).getD "https://blog.emmanuelu.com".data) ++
          "/ghost/api/admin/posts/".data ++ "z".data ++ "/?source=html".data, none,
        some (.jobj [("posts".data, .jarr [.jobj
          (("updated_at".data, .jstr "now".data) ::
            optStrField "title".data (some "T".data) ++ optStrField "html".data none ++
            optStrField "status".data none ++ optBoolField "featured".data none ++
            optListField "tags".data none)])])⟩] :=
  ⟨⟨by decide, by decide, by decide, rfl, rfl⟩,
   claim_C8.1 _ 0 none "z".data (some "T".data) none none none none 200 [] _ _ [] _
     (by decide) (by decide) rfl (by decide) rfl rfl⟩

/-- Attempt counting: with `r` retries left after the current attempt, at
most `r + 1` further attempts happen. -/
theorem retrySend_le (fl : List Nat) (f : Nat → AttemptOutcome) :
    ∀ r i, (retrySend fl f r i).1 ≤ i + r + 1 := by
  intro r
  induction r with
  | zero =>
    intro i
    cases hf : f i <;> simp only [retrySend, hf]
    · omega
    · split <;> omega
  | succ r ih =>
    intro i
    cases hf : f i with
    | fail =>
      simp only [retrySend, hf]
      have := ih (i + 1)
      omega
    | status s =>
      simp only [retrySend, hf]
      split
      · have := ih (i + 1)
        omega
      · omega

/-- When every attempt is transient the whole budget is used and the send
fails. -/
theorem retrySend_exhaust (fl : List Nat) (f : Nat → AttemptOutcome)
    (hall : ∀ i, transientOutcome fl (f i)) :
    ∀ r i, retrySend fl f r i = (i + (r + 1), none) := by
  intro r
  induction r with
  | zero =>
    intro i
    have hi := hall i
    cases hf : f i with
    | fail => simp [retrySend, hf]
    | status s =>
      rw [hf] at hi
      simp only [transientOutcome] at hi
      simp [retrySend, hf, hi]
  | succ r ih =>
    intro i
    have hi := hall i
    cases hf : f i with
    | fail =>
      simp only [retrySend, hf, ih (i + 1)]
      have : i + 1 + (r + 1) = i + (r + 1 + 1) := by omega
      rw [this]
    | status s =>
      rw [hf] at hi
      simp only [transientOutcome] at hi
      simp only [retrySend, hf, if_pos hi, ih (i + 1)]
      have : i + 1 + (r + 1) = i + (r + 1 + 1) := by omega
      rw [this]

/-- C9: under the mounted configuration (total = 3, backoff factor 1,
forcelist {429, 500, 502, 503, 504}), a request is attempted at most four
times (one initial try plus at most three retries); an all-transient
remote exhausts exactly that budget and surfaces a failure, which the
operation wraps as a network error envelope; and a first response with
any other 4xx status is returned immediately, with no retry.  The retry
loop itself is the spec's model of the urllib3 adapter the files mount. -/
theorem claim_C9 :
    retryTotal = 3 ∧ retryBackoffFactor = 1 ∧ retryStatusForcelist = [429, 500, 502, 503, 504] ∧
    (∀ f, (retrySend retryStatusForcelist f retryTotal 0).1 ≤ 4) ∧
    (∀ f, (∀ i, transientOutcome retryStatusForcelist (f i)) →
      retrySend retryStatusForcelist f retryTotal 0 = (4, none)) ∧
    (∀ f s, f 0 = AttemptOutcome.status s → 400 ≤ s → s < 500 → s ≠ 429 →
      retrySend retryStatusForcelist f retryTotal 0 = (1, some s)) ∧
    (∀ t u pid m, pid ≠ toolInfoSentinel → pid ≠ [] →
      delete_ghost_post (fun _ => HttpOutcome.exc m) t u pid =
        (Except.ok (jsonDumps (errObj ("Network or HTTP error - ".data ++ m))),
          [deletePostReq u pid])) := by
  refine ⟨rfl, rfl, rfl, ?_, ?_, ?_, ?_⟩
  · intro f
    have := retrySend_le retryStatusForcelist f retryTotal 0
    simpa [retryTotal] using this
  · intro f hall
    have := retrySend_exhaust retryStatusForcelist f hall retryTotal 0
    simpa [retryTotal] using this
  · intro f s hf h4 h5 h429
    have hnot : s ∉ retryStatusForcelist := by
      intro hmem
      simp only [retryStatusForcelist, List.mem_cons, List.not_mem_nil, or_false] at hmem
      rcases hmem with rfl | rfl | rfl | rfl | rfl <;> omega
    simp [retrySend, hf, hnot, retryTotal]
  · intro t u pid m h1 h2
    obtain ⟨tok, htok⟩ := create_token_admin_isSome t
    simp only [delete_ghost_post, htok, if_neg h1, if_neg h2, handleExc]
    rw [List.append_nil]
    rfl

/-- Witness for C9: an always-503 remote exhausts the budget in four
attempts; a single 404 is never retried; a transport-failing remote makes
`delete_ghost_post` return the network error envelope. -/
theorem claim_C9_witness :
    (∀ i : Nat, transientOutcome retryStatusForcelist ((fun _ => AttemptOutcome.status 503) i)) ∧
    retrySend retryStatusForcelist (fun _ => AttemptOutcome.status 503) retryTotal 0 = (4, none) ∧
    ((fun _ : Nat => AttemptOutcome.status 404) 0 = AttemptOutcome.status 404 ∧
      (400 : Nat) ≤ 404 ∧ (404 : Nat) < 500 ∧ (404 : Nat) ≠ 429) ∧
    retrySend retryStatusForcelist (fun _ => AttemptOutcome.status 404) retryTotal 0 = (1, some 404) ∧
    ("w".data ≠ toolInfoSentinel ∧ "w".data ≠ ([] : Str)) ∧
    delete_ghost_post (fun _ => HttpOutcome.exc "boom".data) 0 none "w".data =
      (Except.ok (jsonDumps (errObj ("Network or HTTP error - ".data ++ "boom".data))),
        [deletePostReq none "w".data]) :=
  ⟨fun _ => (by decide : (503 : Nat) ∈ retryStatusForcelist),
   claim_C9.2.2.2.2.1 (fun _ => .status 503)
     (fun _ => (by decide : (503 : Nat) ∈ retryStatusForcelist)),
   ⟨rfl, by decide, by decide, by decide⟩,
   claim_C9.2.2.2.2.2.1 (fun _ => .status 404) 404 rfl (by decide) (by decide) (by decide),
   ⟨by decide, by decide⟩,
   claim_C9.2.2.2.2.2.2 0 none "w".data "boom".data (by decide) (by decide)⟩

/-- `delete_ghost_post` on a non-204 success status: a decodable body is
re-serialized and returned; an undecodable one yields the generic
"Unexpected error" envelope. -/
theorem delete_ghost_post_non204 (env : Env) (t : Nat) (u : Option Str) (pid : Str)
    (st' : Nat) (text : Str) (body : Option JVal)
    (h1 : pid ≠ toolInfoSentinel) (h2 : pid ≠ [])
    (henv : env (deletePostReq u pid) = .resp st' text body)
    (hst : st' < 400) (h204 : st' ≠ 204) :
    (∀ j, body = some j →
      delete_ghost_post env t u pid = (Except.ok (jsonDumps j), [deletePostReq u pid])) ∧
    (body = none → ∃ m, delete_ghost_post env t u pid =
      (Except.ok (jsonDumps (errObj ("Unexpected error - ".data ++ m))), [deletePostReq u pid])) := by
  obtain ⟨tok, htok⟩ := create_token_admin_isSome t
  have henv' : env ⟨"DELETE".data, rstripSlashes (u.getD "http://192.168.50.80:8083".data) ++
      "/ghost/api/admin/posts/".data ++ pid, none, none⟩ = HttpOutcome.resp st' text body := henv
  have hrs : raiseForStatus st' text = none := by
    unfold raiseForStatus
    rw [if_neg (by omega)]
  constructor
  · rintro j rfl
    simp only [delete_ghost_post, htok, if_neg h1, if_neg h2, henv', hrs, if_neg h204]
    rfl
  · rintro rfl
    refine ⟨jsonDecodeErrMsg, ?_⟩
    simp only [delete_ghost_post, htok, if_neg h1, if_neg h2, henv', hrs, if_neg h204]
    rfl

/-- `delete_ghost_page` on a non-204 success status behaves the same way. -/
theorem delete_ghost_page_non204 (env : Env) (t : Nat) (u : Option Str) (pid : Str)
    (st' : Nat) (text : Str) (body : Option JVal)
    (h1 : pid ≠ toolInfoSentinel) (h2 : pid ≠ [])
    (henv : env (deletePageReq u pid) = .resp st' text body)
    (hst : st' < 400) (h204 : st' ≠ 204) :
    (∀ j, body = some j →
      delete_ghost_page env t u pid = (Except.ok (jsonDumps j), [deletePageReq u pid])) ∧
    (body = none → ∃ m, delete_ghost_page env t u pid =
      (Except.ok (jsonDumps (errObj ("Unexpected error - ".data ++ m))), [deletePageReq u pid])) := by
  obtain ⟨tok, htok⟩ := create_token_admin_isSome t
  have henv' : env ⟨"DELETE".data, rstripSlashes (u.getD "http://192.168.50.80:8083".data) ++
      "/ghost/api/admin/pages/".data ++ pid, none, none⟩ = HttpOutcome.resp st' text body := henv
  have hrs : raiseForStatus st' text = none := by
    unfold raiseForStatus
    rw [if_neg (by omega)]
  constructor
  · rintro j rfl
    simp only [delete_ghost_page, htok, if_neg h1, if_neg h2, henv', hrs, if_neg h204]
    rfl
  · rintro rfl
    refine ⟨jsonDecodeErrMsg, ?_⟩
    simp only [delete_ghost_page, htok, if_neg h1, if_neg h2, henv', hrs, if_neg h204]
    rfl

/-- `delete_ghost_tag` on a non-204 success status behaves the same way. -/
theorem delete_ghost_tag_non204 (env : Env) (t : Nat) (u : Option Str) (tid : Str)
    (st' : Nat) (text : Str) (body : Option JVal)
    (h1 : tid ≠ toolInfoSentinel) (h2 : tid ≠ [])
    (henv : env (deleteTagReq u tid) = .resp st' text body)
    (hst : st' < 400) (h204 : st' ≠ 204) :
    (∀ j, body = some j →
      delete_ghost_tag env t u tid = (Except.ok (jsonDumps j), [deleteTagReq u tid])) ∧
    (body = none → ∃ m, delete_ghost_tag env t u tid =
      (Except.ok (jsonDumps (errObj ("Unexpected error - ".data ++ m))), [deleteTagReq u tid])) := by
  obtain ⟨tok, htok⟩ := create_token_admin_isSome t
  have henv' : env ⟨"DELETE".data, rstripSlashes (u.getD "http://192.168.50.80:8083".data) ++
      "/ghost/api/admin/tags/".data ++ tid, none, none⟩ = HttpOutcome.resp st' text body := henv
  have hrs : raiseForStatus st' text = none := by
    unfold raiseForStatus
    rw [if_neg (by omega)]
  constructor
  · rintro j rfl
    simp only [delete_ghost_tag, htok, if_neg h1, if_neg h2, henv', hrs, if_neg h204]
    rfl
  · rintro rfl
    refine ⟨jsonDecodeErrMsg, ?_⟩
    simp only [delete_ghost_tag, htok, if_neg h1, if_neg h2, henv', hrs, if_neg h204]
    rfl

/-- C10: each delete operation, on a 2xx response other than 204, does not
synthesize the success message: it returns the re-serialized decoded body,
and when the body does not decode, the failure is caught and surfaced as
an "Unexpected error" envelope. -/
theorem claim_C10 :
    (∀ env t u pid st' text body, pid ≠ toolInfoSentinel → pid ≠ [] →
      env (deletePostReq u pid) = .resp st' text body → st' < 400 → st' ≠ 204 →
      (∀ j, body = some j →
        delete_ghost_post env t u pid = (Except.ok (jsonDumps j), [deletePostReq u pid])) ∧
      (body = none → ∃ m, delete_ghost_post env t u pid =
        (Except.ok (jsonDumps (errObj ("Unexpected error - ".data ++ m))), [deletePostReq u pid]))) ∧
    (∀ env t u pid st' text body, pid ≠ toolInfoSentinel → pid ≠ [] →
      env (deletePageReq u pid) = .resp st' text body → st' < 400 → st' ≠ 204 →
      (∀ j, body = some j →
        delete_ghost_page env t u pid = (Except.ok (jsonDumps j), [deletePageReq u pid])) ∧
      (body = none → ∃ m, delete_ghost_page env t u pid =
        (Except.ok (jsonDumps (errObj ("Unexpected error - ".data ++ m))), [deletePageReq u pid]))) ∧
    (∀ env t u tid st' text body, tid ≠ toolInfoSentinel → tid ≠ [] →
      env (deleteTagReq u tid) = .resp st' text body → st' < 400 → st' ≠ 204 →
      (∀ j, body = some j →
        delete_ghost_tag env t u tid = (Except.ok (jsonDumps j), [deleteTagReq u tid])) ∧
      (body = none → ∃ m, delete_ghost_tag env t u tid =
        (Except.ok (jsonDumps (errObj ("Unexpected error - ".data ++ m))), [deleteTagReq u tid]))) :=
  ⟨fun env t u pid st' text body h1 h2 henv hst h204 =>
    delete_ghost_post_non204 env t u pid st' text body h1 h2 henv hst h204,
   fun env t u pid st' text body h1 h2 henv hst h204 =>
    delete_ghost_page_non204 env t u pid st' text body h1 h2 henv hst h204,
   fun env t u tid st' text body h1 h2 henv hst h204 =>
    delete_ghost_tag_non204 env t u tid st' text body h1 h2 henv hst h204⟩

/-- Witness for C10: a 200 with body `{}` is re-serialized by
`delete_ghost_post`; a 200 with an undecodable body makes
`delete_ghost_page` return the "Unexpected error" envelope. -/
theorem claim_C10_witness :
    ("v".data ≠ toolInfoSentinel ∧ "v".data ≠ ([] : Str) ∧ (200 : Nat) < 400 ∧
      (200 : Nat) ≠ 204) ∧
    delete_ghost_post (fun _ => .resp 200 [] (some (.jobj []))) 0 none "v".data =
      (Except.ok (jsonDumps (JVal.jobj [])), [deletePostReq none "v".data]) ∧
    (∃ m, delete_ghost_page (fun _ => .resp 200 "bad".data none) 0 none "v".data =
      (Except.ok (jsonDumps (errObj ("Unexpected error - ".data ++ m))),
        [deletePageReq none "v".data])) :=
  ⟨⟨by decide, by decide, by decide, by decide⟩,
   (claim_C10.1 _ 0 none "v".data 200 [] (some (.jobj [])) (by decide) (by decide) rfl
     (by decide) (by decide)).1 (JVal.jobj []) rfl,
   (claim_C10.2.1 _ 0 none "v".data 200 "bad".data none (by decide) (by decide) rfl
     (by decide) (by decide)).2 rfl⟩
